import Mathlib

/-!
Verification of the invoice_scanner Firebase functions (source file
`src/unnamed/part_004`).  The JavaScript code is shallowly embedded:
JS numbers become `ℚ`, nullable values become `Option`, Firestore
transactions become pure functions returning `Except` (a thrown error
aborts the transaction, so the stored record is unchanged), and the
at-least-once trigger / concurrency model is expressed as serialized
sequences of atomic transaction steps.
-/

namespace InvoiceScanner

/-! ## Statuses (`INVOICE_STATUS`, `PAYMENT_STATUS`) -/

/-- `INVOICE_STATUS` object. -/

inductive InvoiceStatus
  | pending
  | ready
  | processing
  | done
  | uploaded
  | error
  deriving DecidableEq, Repr

/-- `PAYMENT_STATUS` object (`partially_paid` spelled `partiallyPaid`). -/

inductive PaymentStatus
  | unpaid
  | paid
  | partiallyPaid
  deriving DecidableEq, Repr

/-! ## Amount parsing (`parseAmount`, `normalizeEuropeanDecimals`) -/

/-- Characters kept by `parseAmount`'s filter `replace(/[^\d.\-]/g, '')`. -/

def isAmountChar (c : Char) : Bool :=
  c.isDigit || c = '.' || c = '-'

/-- Digit value of a list of decimal digit characters (most significant first). -/

def digitsToNat (l : List Char) : Nat :=
  l.foldl (fun acc c => acc * 10 + (c.toNat - '0'.toNat)) 0

/-- JavaScript `Number(str)` semantics restricted to strings over
`[0-9.\-]` (the alphabet left after `parseAmount`'s filter): an optional
single leading minus, then digits with at most one dot, at least one digit.
`none` models `NaN`. The empty string converts to `0` in JS. -/

def jsNumber (l : List Char) : Option ℚ :=
  match l with
  | [] => some 0
  | _ =>
    let (neg, rest) := if l.head? = some '-' then (true, l.drop 1) else (false, l)
    if rest.contains '-' then none
    else
      let intPart := rest.takeWhile (·.isDigit)
      let after := rest.drop intPart.length
      match after with
      | [] =>
        if intPart = [] then none
        else some ((if neg then -1 else 1) * (digitsToNat intPart : ℚ))
      | '.' :: frac =>
        if frac.all (·.isDigit) ∧ (intPart ≠ [] ∨ frac ≠ []) then
          some ((if neg then -1 else 1) *
            ((digitsToNat intPart : ℚ) + (digitsToNat frac : ℚ) / (10 ^ frac.length : ℚ)))
        else none
      | _ => none

/-- `parseAmount(value)`: strips every character other than digits, dot and
minus, then converts with `Number`; returns `null` for empty or
non-finite results. -/

def parseAmount (value : Option String) : Option ℚ :=
  match value with
  | none => none
  | some s =>
    let str := s.data.filter isAmountChar
    if str = [] then none
    else jsNumber str

/-- JS word character for `\b` (regex without the unicode flag): `[A-Za-z0-9_]`. -/

def isWordChar (c : Char) : Bool :=
  ('a' ≤ c ∧ c ≤ 'z') || ('A' ≤ c ∧ c ≤ 'Z') || c.isDigit || c = '_'

/-- Take exactly `n` digits from the front of the list. -/

def takeExactDigits : Nat → List Char → Option (List Char × List Char)
  | 0, l => some ([], l)
  | n + 1, c :: rest =>
    if c.isDigit then
      match takeExactDigits n rest with
      | some (d, r) => some (c :: d, r)
      | none => none
    else none
  | _ + 1, [] => none

/-- Greedy `(?:\.\d{3})*` (fuel-indexed): consume thousands groups, returning
the digits of the groups (dots dropped, as the replacement
`intPart.replace(/\./g, '')` does) and the rest. -/

def takeThousandGroupsF : Nat → List Char → List Char × List Char
  | 0, l => ([], l)
  | fuel + 1, l =>
    match l with
    | '.' :: rest =>
      match takeExactDigits 3 rest with
      | some (d, r) =>
        let (ds, r') := takeThousandGroupsF fuel r
        (d ++ ds, r')
      | none => ([], l)
    | _ => ([], l)

/-- One attempt to match `/\b(\d{1,3}(?:\.\d{3})*),(\d{1,2})\b/` starting at
the head of `l`; the caller ensures the `\b` before the head.  Returns the
group-1 digits with dots already removed, the decimal digits, and the
unconsumed rest.

Backtracking analysis (the regex engine backtracks; this matcher does not
need to): if more than three digits start the candidate, every retry of
`\d{1,3}` leaves the next character a digit, which matches neither `\.` nor
`,`, so the match fails outright; un-taking a thousands group leaves the next
character `.`, which cannot match `,`; for `\d{1,2}` after the comma the
digit run must have length 1 or 2 followed by a non-word character, since a
shorter take leaves a digit (a word character) at the boundary. -/

def tryMatchEuro (l : List Char) : Option (List Char × List Char × List Char) :=
  let intDigits := l.takeWhile (·.isDigit)
  if intDigits.length = 0 ∨ 3 < intDigits.length then none
  else
    let rest := l.drop intDigits.length
    let (groupDigits, rest') := takeThousandGroupsF rest.length rest
    match rest' with
    | ',' :: afterComma =>
      let decDigits := afterComma.takeWhile (·.isDigit)
      if decDigits.length = 0 ∨ 2 < decDigits.length then none
      else
        let tail := afterComma.drop decDigits.length
        match tail.head? with
        | some c => if isWordChar c then none
                    else some (intDigits ++ groupDigits, decDigits, tail)
        | none => some (intDigits ++ groupDigits, decDigits, tail)
    | _ => none

/-- Global-replace scan for `normalizeEuropeanDecimals` (fuel-indexed;
`prevW` records whether the previous character was a word character, for the
leading `\b`).  A match is replaced by `intPart.replace(/\./g, '') + '.' +
decPart` and scanning resumes after the match. -/

def normScanF : Nat → Bool → List Char → List Char
  | 0, _, l => l
  | _ + 1, _, [] => []
  | fuel + 1, prevW, c :: rest =>
    if ¬prevW ∧ c.isDigit then
      match tryMatchEuro (c :: rest) with
      | some (intDigits, decDigits, rest') =>
        intDigits ++ '.' :: decDigits ++ normScanF fuel true rest'
      | none => c :: normScanF fuel (isWordChar c) rest
    else c :: normScanF fuel (isWordChar c) rest

/-- `normalizeEuropeanDecimals(text)`: converts European-format numbers
(`2.383,13` → `2383.13`) via the global regex replace
`/\b(\d{1,3}(?:\.\d{3})*),(\d{1,2})\b/g`. -/

def normalizeEuropeanDecimals (s : String) : String :=
  ⟨normScanF s.data.length false s.data⟩

/-! ## `sanitizeId` and invoice-number normalization -/

/-- Characters kept as-is by `sanitizeId`'s `[^a-z0-9]+` → `-` replacement
(after lowercasing). -/

def isSanitaryChar (c : Char) : Bool :=
  ('a' ≤ c ∧ c ≤ 'z') || c.isDigit

/-- `replace(/[^a-z0-9]+/g, '-')`: every maximal run of other characters
becomes a single `-` (`inRun` tracks being inside such a run). -/

def collapseNS (inRun : Bool) : List Char → List Char
  | [] => []
  | c :: rest =>
    if isSanitaryChar c then c :: collapseNS false rest
    else if inRun then collapseNS true rest
    else '-' :: collapseNS true rest

/-- `replace(/[^a-z0-9]+/g, '-')` on a whole string. -/

def collapseNonSanitary (l : List Char) : List Char :=
  collapseNS false l

/-- `trim()` on a char list (JS trims whitespace; inputs here are already
trimmed of interest, we strip spaces and common whitespace). -/

def jsTrim (l : List Char) : List Char :=
  (l.dropWhile (·.isWhitespace)).reverse.dropWhile (·.isWhitespace) |>.reverse

/-- `sanitizeId(value, fallback)`: lowercase, replace non-alphanumeric runs
with `-`, strip leading/trailing `-`, truncate to 64 chars; empty result (or
falsy input) yields the fallback. -/

def sanitizeId (value : Option String) (fallback : String) : String :=
  match value with
  | none => fallback
  | some s =>
    if s = "" then fallback
    else
      let core := collapseNonSanitary (jsTrim (s.data.map Char.toLower))
      let stripped := (core.dropWhile (· = '-')).reverse.dropWhile (· = '-') |>.reverse
      let cut := stripped.take 64
      if cut = [] then fallback else ⟨cut⟩

/-- `mappedResult.invoiceNumber?.toString().match(/\d+/g)?.join('') || null`:
the concatenated digits of the extracted invoice number, or `null` when the
value is absent or has no digits. -/

def normalizeInvoiceNumber (value : Option String) : Option String :=
  match value with
  | none => none
  | some s =>
    let ds := s.data.filter (·.isDigit)
    if ds = [] then none else some ⟨ds⟩

/-! ## `derivePaymentStatus` -/

/-- `derivePaymentStatus(paidAmount, totalAmount)`; `totalAmount` is
`Option ℚ` because callers may pass a missing value (`!totalAmount` is also
true for `0`). -/

def derivePaymentStatus (paidAmount : ℚ) (totalAmount : Option ℚ) : PaymentStatus :=
  match totalAmount with
  | none => if paidAmount > 0 then .partiallyPaid else .unpaid
  | some t =>
    if t = 0 ∨ t ≤ 0 then
      if paidAmount > 0 then .partiallyPaid else .unpaid
    else if paidAmount ≥ t then .paid
    else if paidAmount > 0 then .partiallyPaid
    else .unpaid

/-! ## Session records (`metadata_invoices` documents) -/

/-- One entry of a session's `pages` array. -/

structure PageRecord where
  pageNumber : Nat
  objectName : String
  bucket : Option String
  contentType : String
  recordedAt : Nat
  deriving DecidableEq, Repr

/-- A `metadata_invoices/{invoiceId}` document (fields the embedded
functions read or write; timestamps are abstract `Nat` instants). -/

structure SessionDoc where
  ownerUid : Option String
  bucket : Option String
  status : InvoiceStatus
  totalPages : Option Nat
  uploadedPages : List Nat
  uploadedCount : Nat
  pages : List PageRecord
  readyAt : Option Nat
  processingStartedAt : Option Nat
  errorMessage : Option String
  duplicateOf : Option String
  successMessage : Option String
  deriving DecidableEq, Repr

/-- JS `a || b` on nullable numbers (`0` is falsy). -/

def jsOrNat (a b : Option Nat) : Option Nat :=
  match a with
  | some n => if n = 0 then b else some n
  | none => b

/-- JS `a || b` on nullable strings (`''` is falsy). -/

def jsOrStr (a b : Option String) : Option String :=
  match a with
  | some s => if s = "" then b else some s
  | none => b

/-- JS `a || b` where `a` is a nullable string and `b` a plain string. -/

def jsOrStr' (a : Option String) (b : String) : String :=
  match a with
  | some s => if s = "" then b else s
  | none => b

/-- `normalizeTotalPages(totalPages)`: `null`/`undefined` pass through,
otherwise the value must be a positive integer. -/

def normalizeTotalPages (totalPages : Option Int) : Except String (Option Nat) :=
  match totalPages with
  | none => .ok none
  | some v =>
    if v ≤ 0 then .error "totalPages must be a positive integer"
    else .ok (some v.toNat)

/-- `normalizePageNumber(pageNumber)`: must be a positive integer. -/

def normalizePageNumber (pageNumber : Int) : Except String Nat :=
  if pageNumber ≤ 0 then .error "pageNumber must be a positive integer"
  else .ok pageNumber.toNat

/-- Insert into a sorted list (JS numeric-comparator sort; keys in our
states are distinct, so stability is irrelevant). -/

def insertSorted (le : α → α → Bool) (a : α) : List α → List α
  | [] => [a]
  | b :: rest => if le b a then b :: insertSorted le a rest else a :: b :: rest

/-- Insertion sort, embedding `array.sort(comparator)`. -/

def insertionSort (le : α → α → Bool) : List α → List α
  | [] => []
  | a :: rest => insertSorted le a (insertionSort le rest)

/-- `new Set(list)` then `.add(n)`: the distinct elements with `n` added. -/

def setAdd (n : Nat) (l : List Nat) : List Nat :=
  if n ∈ l then l.dedup else l.dedup ++ [n]

/-- JS `a && b && a !== b` on nullable positive page counts. -/

def totalPagesMismatch (a b : Option Nat) : Bool :=
  match a, b with
  | some x, some y => x ≠ 0 && y ≠ 0 && x ≠ y
  | _, _ => false

/-- JS `data.ownerUid && uid && data.ownerUid !== uid`. -/

def ownerMismatch (owner uid : Option String) : Bool :=
  match owner, uid with
  | some o, some u => o ≠ "" && u ≠ "" && o ≠ u
  | _, _ => false

/-- `ensureInvoiceDocument` transaction body: create the session `pending`
or merge-update it, never touching `status` of an existing document.
`now` is the server-timestamp instant. -/

def ensureInvoiceDocument (doc : Option SessionDoc) (uid : Option String)
    (bucketName : Option String) (normalizedTotalPages : Option Nat) :
    Except String SessionDoc :=
  match doc with
  | none =>
    match normalizedTotalPages with
    | none => .error "totalPages must be provided when starting a new invoice."
    | some n =>
      .ok {
        ownerUid := uid
        bucket := bucketName
        status := .pending
        totalPages := some n
        uploadedPages := []
        uploadedCount := 0
        pages := []
        readyAt := none
        processingStartedAt := none
        errorMessage := none
        duplicateOf := none
        successMessage := none }
  | some existing =>
    if totalPagesMismatch existing.totalPages normalizedTotalPages then
      .error "totalPages does not match the existing invoice metadata"
    else
      .ok { existing with
        totalPages := jsOrNat existing.totalPages normalizedTotalPages
        bucket := jsOrStr existing.bucket bucketName
        ownerUid := jsOrStr existing.ownerUid uid }

/-- `registerUploadedPage` transaction body (the page number and total-page
count are already normalized by the callers; `now` models
`Timestamp.now()`). A thrown error aborts the transaction, leaving the
stored document unchanged. -/

def registerUploadedPage (doc : Option SessionDoc)
    (normalizedPageNumber : Nat) (objectName : String)
    (bucketName : Option String) (contentType : String)
    (normalizedTotalPages : Option Nat) (uid : Option String) (now : Nat) :
    Except String SessionDoc :=
  match doc with
  | none => .error "Invoice metadata not found"
  | some data =>
    if ownerMismatch data.ownerUid uid then
      .error "You do not have access to this invoice."
    else
      match jsOrNat data.totalPages normalizedTotalPages with
      | none => .error "totalPages must be specified before uploading pages"
      | some resolvedTotalPages =>
        if resolvedTotalPages = 0 then
          .error "totalPages must be specified before uploading pages"
        else if totalPagesMismatch (some resolvedTotalPages) normalizedTotalPages then
          .error "totalPages does not match existing metadata"
        else if resolvedTotalPages < normalizedPageNumber then
          .error "pageNumber cannot exceed totalPages"
        else
          let uploadedPages := setAdd normalizedPageNumber data.uploadedPages
          let pages :=
            insertionSort (fun a b => a.pageNumber ≤ b.pageNumber)
              ((data.pages.filter (fun entry => entry.pageNumber ≠ normalizedPageNumber)) ++
                [{ pageNumber := normalizedPageNumber
                   objectName := objectName
                   bucket := bucketName
                   contentType := contentType
                   recordedAt := now }])
          let shouldMarkReady :=
            uploadedPages.length = resolvedTotalPages ∧ data.status = .pending
          .ok { data with
            totalPages := some resolvedTotalPages
            uploadedPages := insertionSort (fun a b => a ≤ b) uploadedPages
            uploadedCount := uploadedPages.length
            pages := pages
            bucket := jsOrStr bucketName data.bucket
            ownerUid := jsOrStr data.ownerUid uid
            status := if shouldMarkReady then .ready else data.status
            readyAt := if shouldMarkReady then some now else data.readyAt }

/-! ## Finalized invoice records (`suppliers/{supplierId}/invoices/{invoiceId}`) -/

/-- One line of `paymentHistory` (append-only audit log). -/

structure PaymentEntry where
  amount : ℚ
  paymentDate : Option Nat
  paymentMethod : String
  notes : Option String
  recordedAt : Nat
  recordedBy : String
  deriving DecidableEq, Repr

/-- A finalized invoice document (fields the embedded functions read or
write; timestamps are abstract `Nat` instants). -/

structure InvoiceRecord where
  invoiceId : String
  supplierId : String
  uploadedBy : Option String
  supplierName : Option String
  supplierTaxNumber : Option String
  invoiceNumber : Option String
  invoiceDate : Option Nat
  dueDate : Option Nat
  totalAmount : Option ℚ
  netAmount : Option ℚ
  vatAmount : Option ℚ
  vatRate : Option ℚ
  currency : String
  confidence : Option ℚ
  processingStatus : InvoiceStatus
  paymentStatus : Option PaymentStatus
  paidAmount : Option ℚ
  unpaidAmount : Option ℚ
  paymentHistory : List PaymentEntry
  filePath : Option String
  deriving DecidableEq, Repr

/-- HTTP-style error thrown inside the payment/field transactions
(`Object.assign(new Error(msg), { httpStatus })`). -/

structure HttpError where
  message : String
  httpStatus : Nat
  deriving DecidableEq, Repr

/-! ## `updatePaymentStatus` -/

/-- `action` of a payment request (`validatePaymentRequest` rejects every
other string, so a well-typed request carries only these two). -/

inductive PayAction
  | pay
  | partialPay
  deriving DecidableEq, Repr

/-- A payment request body after JSON parsing (`supplierId`/`invoiceId`
locate the record and are modelled by the record argument itself). -/

structure PaymentBody where
  action : PayAction
  amount : Option ℚ
  paymentMethod : Option String
  notes : Option String
  paymentDate : Option Nat
  deriving DecidableEq, Repr

/-- The amount-related checks of `validatePaymentRequest` (the
string-typing and date-parsing checks are enforced by the types of
`PaymentBody`). -/

def validatePaymentRequest (body : PaymentBody) : List String :=
  (match body.action, body.amount with
   | .partialPay, none =>
     ["amount is required and must be a positive number for partial payments"]
   | .partialPay, some a =>
     if a ≤ 0 then
       ["amount is required and must be a positive number for partial payments"]
     else []
   | _, _ => []) ++
  (match body.amount with
   | some a => if a < 0 then ["amount must be a non-negative number"] else []
   | none => [])

/-- JS `invoiceData.uploadedBy && invoiceData.uploadedBy !== user.uid`
(unlike the page-registration owner check, the caller's uid is not
required to be truthy here). -/

def uploadedByMismatch (uploadedBy : Option String) (uid : String) : Bool :=
  match uploadedBy with
  | some o => o ≠ "" && o ≠ uid
  | none => false

/-- Step 6 of the `updatePaymentStatus` transaction: the effective payment
amount — a `pay` action defaults to the outstanding balance unless an
explicit amount was sent, a `partial` action uses the explicit amount
(which validation guarantees is present and positive). -/

def effectivePaymentAmount (invoiceData : InvoiceRecord) (body : PaymentBody) : ℚ :=
  let totalAmount := invoiceData.totalAmount.getD 0
  let currentPaidAmount := invoiceData.paidAmount.getD 0
  let currentUnpaidAmount := totalAmount - currentPaidAmount
  match body.action with
  | .pay => body.amount.getD currentUnpaidAmount
  | .partialPay => body.amount.getD 0

/-- `updatePaymentStatus` after authentication: request validation followed
by the Firestore transaction (steps 3–11 of the source).  An error return
models an aborted transaction: the stored record is unchanged. -/

def updatePaymentStatus (record : Option InvoiceRecord) (body : PaymentBody)
    (uid : String) (now : Nat) : Except HttpError InvoiceRecord :=
  if validatePaymentRequest body ≠ [] then
    .error { message := "Validation failed", httpStatus := 400 }
  else
    match record with
    | none => .error { message := "Invoice not found", httpStatus := 404 }
    | some invoiceData =>
      if uploadedByMismatch invoiceData.uploadedBy uid then
        .error { message := "You are not authorized to update this invoice",
                 httpStatus := 403 }
      else
        let totalAmount := invoiceData.totalAmount.getD 0
        let currentPaidAmount := invoiceData.paidAmount.getD 0
        let currentUnpaidAmount := totalAmount - currentPaidAmount
        let paymentAmount := effectivePaymentAmount invoiceData body
        if totalAmount > 0 ∧ paymentAmount > currentUnpaidAmount + 0.01 then
          .error { message := "Payment amount exceeds unpaid balance",
                   httpStatus := 400 }
        else if invoiceData.paymentStatus = some .paid then
          .error { message := "Invoice is already fully paid", httpStatus := 400 }
        else
          let newPaidAmount := currentPaidAmount + paymentAmount
          let newUnpaidAmount := max 0 (totalAmount - newPaidAmount)
          let newPaymentStatus := derivePaymentStatus newPaidAmount (some totalAmount)
          let paymentEntry : PaymentEntry :=
            { amount := paymentAmount
              paymentDate := body.paymentDate
              paymentMethod := body.paymentMethod.getD "other"
              notes := body.notes
              recordedAt := now
              recordedBy := uid }
          .ok { invoiceData with
            paymentStatus := some newPaymentStatus
            paidAmount := some newPaidAmount
            unpaidAmount := some newUnpaidAmount
            paymentHistory := invoiceData.paymentHistory ++ [paymentEntry] }

/-! ## `updateInvoiceFields` -/

/-- A `fields` patch after JSON parsing (field presence = key present in
the request; `EDITABLE_INVOICE_FIELDS` plus `currency` are representable,
so the unknown-field check is enforced by the type). -/

structure FieldPatch where
  supplierName : Option String
  supplierTaxNumber : Option String
  invoiceNumber : Option String
  currency : Option String
  invoiceDate : Option Nat
  dueDate : Option Nat
  totalAmount : Option ℚ
  netAmount : Option ℚ
  vatAmount : Option ℚ
  vatRate : Option ℚ
  paidAmount : Option ℚ
  deriving DecidableEq, Repr

/-- The empty patch. -/

def FieldPatch.empty : FieldPatch :=
  { supplierName := none, supplierTaxNumber := none, invoiceNumber := none
    currency := none, invoiceDate := none, dueDate := none, totalAmount := none
    netAmount := none, vatAmount := none, vatRate := none, paidAmount := none }

/-- The numeric checks of `validateUpdateFieldsRequest` (string/date typing
is enforced by `FieldPatch`'s types): numeric fields must be non-negative. -/

def validateUpdateFieldsRequest (fields : FieldPatch) : List String :=
  (match fields.totalAmount with
   | some a => if a < 0 then ["fields.totalAmount must be non-negative"] else []
   | none => []) ++
  (match fields.netAmount with
   | some a => if a < 0 then ["fields.netAmount must be non-negative"] else []
   | none => []) ++
  (match fields.vatAmount with
   | some a => if a < 0 then ["fields.vatAmount must be non-negative"] else []
   | none => []) ++
  (match fields.vatRate with
   | some a => if a < 0 then ["fields.vatRate must be non-negative"] else []
   | none => []) ++
  (match fields.paidAmount with
   | some a => if a < 0 then ["fields.paidAmount must be non-negative"] else []
   | none => [])

/-- `updateInvoiceFields` after authentication: request validation followed
by the Firestore transaction.  The transaction checks only that the record
exists — it performs no comparison between `uid` and the record's
`uploadedBy`.  An error return models an aborted transaction. -/

def updateInvoiceFields (record : Option InvoiceRecord) (fields : FieldPatch)
    (uid : String) : Except HttpError InvoiceRecord :=
  if validateUpdateFieldsRequest fields ≠ [] then
    .error { message := "Validation failed", httpStatus := 400 }
  else
    match record with
    | none => .error { message := "Invoice not found", httpStatus := 404 }
    | some invoiceData =>
      let base := { invoiceData with
        supplierName := fields.supplierName.or invoiceData.supplierName
        supplierTaxNumber := fields.supplierTaxNumber.or invoiceData.supplierTaxNumber
        invoiceNumber := fields.invoiceNumber.or invoiceData.invoiceNumber
        currency := fields.currency.getD invoiceData.currency
        invoiceDate := fields.invoiceDate.or invoiceData.invoiceDate
        dueDate := fields.dueDate.or invoiceData.dueDate
        netAmount := fields.netAmount.or invoiceData.netAmount
        vatAmount := fields.vatAmount.or invoiceData.vatAmount
        vatRate := fields.vatRate.or invoiceData.vatRate }
      let currentTotalAmount := invoiceData.totalAmount.getD 0
      let currentPaidAmount := invoiceData.paidAmount.getD 0
      let newTotalAmount := fields.totalAmount.getD currentTotalAmount
      let newPaidAmount := fields.paidAmount.getD currentPaidAmount
      let base := { base with
        totalAmount := fields.totalAmount.or invoiceData.totalAmount
        paidAmount := fields.paidAmount.or invoiceData.paidAmount }
      if fields.totalAmount ≠ none ∨ fields.paidAmount ≠ none then
        if newPaidAmount > newTotalAmount + 0.01 then
          .error { message := "paidAmount cannot exceed totalAmount", httpStatus := 400 }
        else
          .ok { base with
            unpaidAmount := some (max 0 (newTotalAmount - newPaidAmount))
            paymentStatus := some (derivePaymentStatus newPaidAmount (some newTotalAmount)) }
      else
        .ok base

/-! ## OCR retry loop (`runInvoiceOcr`) -/

/-- `OCR_MAX_RETRIES`. -/

def OCR_MAX_RETRIES : Nat := 3

/-- Outcome message used when an attempt returned a falsy result. -/

def noResultMessage : String := "OCR attempt produced no result."

/-- Fallback of `throw lastError || new Error(...)` (unreachable: the loop
always records a `lastError` before exhausting). -/

def exhaustedMessage : String := "Aποτυχία OCR έπειτα από 3 προσπάθειες"

/-- The `for (attempt = 1; attempt <= OCR_MAX_RETRIES; attempt++)` body of
`runInvoiceOcr`.  `attemptResult i` is the outcome of
`runInvoiceOcrAttempt(pageBuffers)` on the `i`-th iteration (each call a
full independent re-recognition and re-extraction over the same
`pageBuffers`); `.ok none` is a falsy parsed result, `.error e` a thrown
error. -/

def ocrLoopGo (attemptResult : Nat → Except String (Option R)) :
    Nat → Nat → Option String → Except String R
  | 0, _, lastError => .error (lastError.getD exhaustedMessage)
  | remaining + 1, attempt, lastError =>
    match attemptResult attempt with
    | .ok (some r) => .ok r
    | .ok none => ocrLoopGo attemptResult remaining (attempt + 1) (some noResultMessage)
    | .error e => ocrLoopGo attemptResult remaining (attempt + 1) (some e)

/-- `runInvoiceOcr(pageBuffers)`: early `null` returns when the OpenAI
client is missing or no buffers were provided, otherwise the retry loop.
`.ok none` models the early `return null`, `.ok (some r)` a structured
result, `.error` the re-thrown last error. -/

def runInvoiceOcr (ocrConfigured : Bool) (pageBuffersNonempty : Bool)
    (attemptResult : Nat → Except String (Option R)) : Except String (Option R) :=
  if ¬ocrConfigured then .ok none
  else if ¬pageBuffersNonempty then .ok none
  else
    match ocrLoopGo attemptResult OCR_MAX_RETRIES 1 none with
    | .ok r => .ok (some r)
    | .error e => .error e

/-! ## Processing orchestrator (`processInvoiceDocument`) -/

/-- The GPT extraction result after `FIELD_LABELS` key mapping
(each value a string or null, per the response JSON schema). -/

structure OcrExtract where
  invoiceDate : Option String
  invoiceNumber : Option String
  supplierName : Option String
  supplierTaxNumber : Option String
  netAmount : Option String
  vat : Option String
  totalAmount : Option String
  confidence : Option String
  deriving DecidableEq, Repr

/-- JS `v || null` on a nullable string (an empty string becomes `null`). -/

def jsOrNull (v : Option String) : Option String :=
  match v with
  | some s => if s = "" then none else some s
  | none => none

/-- `Number(s)` for the confidence coercion, restricted to plain decimal
strings (other shapes — whitespace padding, exponents, hex — are mapped to
`none`/NaN; the confidence value plays no role in any claim). -/

def jsNumberFull (s : String) : Option ℚ :=
  if s.data.all isAmountChar then jsNumber s.data else none

/-- `mappedResult.confidence ? Number(mappedResult.confidence) : null`. -/

def jsConfidence (v : Option String) : Option ℚ :=
  match v with
  | some s => if s = "" then none else jsNumberFull s
  | none => none

/-- JS string coercion of a nullable string (`null` prints as `"null"`). -/

def jsToString (v : Option String) : String :=
  match v with
  | some s => s
  | none => "null"

/-- `formatMetadataError(invoiceNumber, supplierName, errorMsg)`. -/

def formatMetadataError (invoiceNumber supplierName : Option String)
    (errorMsg : String) : String :=
  match invoiceNumber, supplierName with
  | some inv, some sup =>
    if inv ≠ "" ∧ sup ≠ "" ∧ sup ≠ "Unknown Supplier" then
      "❌ Aποτυχία τιμολογίου ΤΔΑ-" ++ inv ++ " από " ++ sup ++ ". " ++ errorMsg
    else errorMsg
  | _, _ => errorMsg

/-- `formatMetadataSuccess(invoiceNumber, supplierName)`. -/

def formatMetadataSuccess (invoiceNumber : Option String) (supplierName : String) :
    String :=
  "✅ Επιτυχία τιμολογίου ΤΔΑ-" ++ jsToString invoiceNumber ++ " από " ++
    supplierName ++ "."

/-- The duplicate query
`suppliers/{supplierId}/invoices.where('invoiceNumber','==',invoiceNumber).limit(1)`. -/

def findDuplicate (db : List InvoiceRecord) (supplierId invoiceNumber : String) :
    Option InvoiceRecord :=
  db.find? (fun r => r.supplierId = supplierId ∧ r.invoiceNumber = some invoiceNumber)

/-- `invoiceDocRef.set(payload, { merge: true })`: the payload's fields
overwrite; fields absent from the payload (`paidAmount`,
`paymentHistory`) survive from an existing record. -/

def mergeInvoicePayload (existing : Option InvoiceRecord) (p : InvoiceRecord) :
    InvoiceRecord :=
  match existing with
  | none => p
  | some e => { p with paidAmount := e.paidAmount, paymentHistory := e.paymentHistory }

/-- Store a merged payload into the record store (keyed by
`(supplierId, invoiceId)`). -/

def upsertRecord (db : List InvoiceRecord) (p : InvoiceRecord) : List InvoiceRecord :=
  let existing := db.find? (fun r => r.supplierId = p.supplierId ∧ r.invoiceId = p.invoiceId)
  let merged := mergeInvoicePayload existing p
  match existing with
  | none => db ++ [merged]
  | some _ =>
    db.map (fun r =>
      if r.supplierId = p.supplierId ∧ r.invoiceId = p.invoiceId then merged else r)

/-- JS `invoiceData.totalPages && pages.length !== invoiceData.totalPages`. -/

def pageCountMismatch (totalPages : Option Nat) (pagesLength : Nat) : Bool :=
  match totalPages with
  | some t => t ≠ 0 && pagesLength ≠ t
  | none => false

/-- The session document just after the lock transaction claims it. -/

def lockedSession (d : SessionDoc) (now : Nat) : SessionDoc :=
  { d with status := .processing, processingStartedAt := some now, errorMessage := none }

/-- The lock transaction at the top of `processInvoiceDocument`: re-read the
session, verify `status` is still `ready`, and claim it by writing
`processing` with a start timestamp; otherwise return `null` (first
component `none`).  The first component is the pre-lock snapshot the
processing steps consume. -/

def lockTx (d : SessionDoc) (now : Nat) : Option SessionDoc × SessionDoc :=
  if d.status ≠ .ready then (none, d)
  else (some d, lockedSession d now)

/-- Environment of one `processInvoiceDocument` invocation: configuration
plus oracles for the outcomes of the external I/O calls. -/

structure ProcEnv where
  /-- `openaiClient` is configured. -/
  ocrConfigured : Bool
  /-- `getBucketName()`. -/
  defaultBucket : Option String
  /-- Outcome of `buildCombinedPdfFromPages` (buffer contents abstracted). -/
  buildPdf : Except String Unit
  /-- Outcome of `runInvoiceOcr` on the selected page subset: `.ok none`
  is a falsy result, `.ok (some f)` the mapped fields, `.error` a throw. -/
  ocr : Except String (Option OcrExtract)
  /-- Outcome of saving the combined PDF to storage. -/
  pdfSave : Except String Unit
  /-- Outcome of `invoiceDocRef.set(payload, {merge: true})`. -/
  recordSet : Except String Unit
  /-- Oracle for `parseDate` composed with the Timestamp conversion
  (dates are irrelevant to every claim settled here). -/
  parseDateO : Option String → Option Nat
  /-- Server-timestamp instant. -/
  now : Nat

/-- Result of one `processInvoiceDocument` invocation. -/

structure ProcResult where
  /-- The session document after the invocation. -/
  doc : SessionDoc
  /-- The `status` values written to the session document, in order. -/
  statusTrace : List InvoiceStatus
  /-- The finalized-record store after the invocation. -/
  db : List InvoiceRecord
  /-- Whether the combined artifact was stored. -/
  artifactWritten : Bool
  /-- Whether the lock transaction claimed the session. -/
  lockAcquired : Bool
  deriving Repr

/-- An invocation that exits without writing anything. -/

def ProcResult.noop (doc : SessionDoc) (db : List InvoiceRecord) : ProcResult :=
  { doc := doc, statusTrace := [], db := db, artifactWritten := false,
    lockAcquired := false }

/-- Artifact storage (failure swallowed by its local `catch`), record
creation, and the final `done` update; a `recordSet` failure reaches the
enclosing `catch` handler. -/

def processFinalize (env : ProcEnv) (invoiceId : String)
    (locked : SessionDoc) (db : List InvoiceRecord)
    (supplierName : String) (supplierTaxNumber : Option String)
    (supplierId : String) (invoiceNumber : Option String)
    (uploadedBy : Option String) (fields : OcrExtract) : ProcResult :=
  let artifactWritten :=
    match env.pdfSave with
    | .ok _ => true
    | .error _ => false   -- logged by the inner catch and swallowed
  let payload : InvoiceRecord :=
    { invoiceId := invoiceId
      supplierId := supplierId
      uploadedBy := uploadedBy
      supplierName := some supplierName
      supplierTaxNumber := supplierTaxNumber
      invoiceNumber := invoiceNumber
      invoiceDate := env.parseDateO fields.invoiceDate
      dueDate := env.parseDateO none
      totalAmount := parseAmount fields.totalAmount
      netAmount := parseAmount fields.netAmount
      vatAmount := parseAmount fields.vat
      vatRate := parseAmount none
      currency := "EUR"
      confidence := jsConfidence fields.confidence
      processingStatus := .uploaded
      paymentStatus := some .unpaid
      paidAmount := none
      unpaidAmount := parseAmount fields.totalAmount
      paymentHistory := []
      filePath := some ("suppliers/" ++ supplierId ++ "/invoices/" ++ invoiceId ++ ".pdf") }
  match env.recordSet with
  | .error e =>
    let msg := formatMetadataError invoiceNumber (some supplierName)
      ("Αδυναμία επεξεργασίας τιμολογίου με id: " ++ invoiceId ++ ". Σφάλμα: " ++ e)
    { doc := { locked with status := .error, errorMessage := some msg }
      statusTrace := [.processing, .error], db := db,
      artifactWritten := artifactWritten, lockAcquired := true }
  | .ok _ =>
    let okMsg := formatMetadataSuccess invoiceNumber supplierName
    let doc' := { locked with status := .done, errorMessage := none,
                              successMessage := some okMsg }
    { doc := doc'
      statusTrace := [.processing, .done]
      db := upsertRecord db payload
      artifactWritten := artifactWritten, lockAcquired := true }

/-- The processing steps inside the `try` block (after the lock, bucket,
page-presence and page-count guards), together with the `catch` handler
and the duplicate early-return.  `invoiceData` is the pre-lock snapshot,
`locked` the session document already marked `processing`. -/

def processSteps (env : ProcEnv) (invoiceId : String) (invoiceData locked : SessionDoc)
    (db : List InvoiceRecord) : ProcResult :=
  match env.buildPdf with
  | .error e =>
    let msg := formatMetadataError none none
      ("Αδυναμία επεξεργασίας τιμολογίου με id: " ++ invoiceId ++ ". Σφάλμα: " ++ e)
    { doc := { locked with status := .error, errorMessage := some msg }
      statusTrace := [.processing, .error], db := db, artifactWritten := false,
      lockAcquired := true }
  | .ok _ =>
    match env.ocr with
    | .error e =>
      let msg := formatMetadataError none none
        ("Αδυναμία επεξεργασίας τιμολογίου με id: " ++ invoiceId ++ ". Σφάλμα: " ++ e)
      { doc := { locked with status := .error, errorMessage := some msg }
        statusTrace := [.processing, .error], db := db, artifactWritten := false,
        lockAcquired := true }
    | .ok none =>
      let msg := formatMetadataError none none
        ("Αδυναμία επεξεργασίας τιμολογίου με id: " ++ invoiceId ++ ". Σφάλμα: " ++
          "OCR result was empty.")
      { doc := { locked with status := .error, errorMessage := some msg }
        statusTrace := [.processing, .error], db := db, artifactWritten := false,
        lockAcquired := true }
    | .ok (some fields) =>
      let supplierName := jsOrStr' fields.supplierName "Unknown Supplier"
      let supplierTaxNumber := jsOrNull fields.supplierTaxNumber
      let supplierId :=
        sanitizeId fields.supplierTaxNumber
          (sanitizeId fields.supplierName "unknown-supplier")
      let invoiceNumber := normalizeInvoiceNumber fields.invoiceNumber
      let uploadedBy := jsOrNull invoiceData.ownerUid
      -- `ensureSupplierProfile` swallows its own failures (its `catch` only
      -- logs); the supplier-profile store is not tracked here.
      match invoiceNumber with
      | some inv =>
        (match findDuplicate db supplierId inv with
         | some existingInvoice =>
           let msg := formatMetadataError (some inv) (some supplierName)
             ("Διπλότυπο τιμολόγιο (υπάρχον: " ++ existingInvoice.invoiceId ++ ")")
           let doc' := { locked with status := .error, errorMessage := some msg,
                                     duplicateOf := some existingInvoice.invoiceId }
           { doc := doc'
             statusTrace := [.processing, .error], db := db,
             artifactWritten := false, lockAcquired := true }
         | none =>
           processFinalize env invoiceId locked db supplierName
             supplierTaxNumber supplierId invoiceNumber uploadedBy fields)
      | none =>
        processFinalize env invoiceId locked db supplierName
          supplierTaxNumber supplierId invoiceNumber uploadedBy fields

/-- One invocation of the `processInvoiceDocument` Firestore `onWrite`
trigger, as a pure function of the written document, the previous snapshot
status, the environment and the finalized-record store. -/

def processInvoiceDocument (env : ProcEnv) (beforeStatus : Option InvoiceStatus)
    (doc : SessionDoc) (invoiceId : String) (db : List InvoiceRecord) : ProcResult :=
  if beforeStatus = some doc.status then .noop doc db
  else if doc.status ≠ .ready then .noop doc db
  else if ¬env.ocrConfigured then
    let msg := "Αποτυχία OCR, το OPENAI_API_KEY λείπει."
    { doc := { doc with status := .error, errorMessage := some msg }
      statusTrace := [.error], db := db, artifactWritten := false,
      lockAcquired := false }
  else
    match lockTx doc env.now with
    | (none, d) => .noop d db
    | (some invoiceData, locked) =>
      match jsOrStr invoiceData.bucket env.defaultBucket with
      | none =>
        let msg := "Λείπει η ρύθμιση του bucket για την επεξεργασία τιμολογίου."
        { doc := { locked with status := .error, errorMessage := some msg }
          statusTrace := [.processing, .error], db := db, artifactWritten := false,
          lockAcquired := true }
      | some _ =>
        let pages := insertionSort (fun a b => a.pageNumber ≤ b.pageNumber)
          invoiceData.pages
        if pages.length = 0 then
          let msg := "Δεν έγινε ανέβασμα τιμολογίου."
          { doc := { locked with status := .error, errorMessage := some msg }
            statusTrace := [.processing, .error], db := db, artifactWritten := false,
            lockAcquired := true }
        else if pageCountMismatch invoiceData.totalPages pages.length then
          let msg := "Αναμενόταν " ++ toString (invoiceData.totalPages.getD 0) ++
            " σελίδες αλλά βρέθηκαν " ++ toString pages.length ++ "."
          { doc := { locked with status := .error, errorMessage := some msg }
            statusTrace := [.processing, .error], db := db, artifactWritten := false,
            lockAcquired := true }
        else
          processSteps env invoiceId invoiceData locked db

/-! ## Serialized concurrency model for the processing trigger

A Firestore transaction serializes with every other transaction on the same
document, so a set of racing `processInvoiceDocument` invocations is
modelled by an arbitrary interleaving (a list) of atomic events: each
invocation contributes one `trigger` event (its lock transaction, `lockTx`),
and the single lock winner later contributes one completion event — the
final session write of `processSteps`/`processFinalize`, which either marks
`done` after creating the finalized record, or marks `error`.  The model
covers invocations with the OCR client configured; the unconfigured guard,
which writes `error` before the lock, is embedded in
`processInvoiceDocument` and analysed with the status transitions. -/

/-- An atomic store event in a race of processing invocations. -/

inductive ProcEvent
  | trigger
  | finishDone
  | finishError
  deriving DecidableEq, Repr

/-- State of the serialized race: the session document plus observability
counters (how many lock transactions observed `ready`, how many finalized
records were produced, and whether a lock winner is still running). -/

structure ConcState where
  doc : SessionDoc
  lockWins : Nat
  recordsWritten : Nat
  winnerActive : Bool
  deriving Repr

/-- One serialized event.  A `trigger` runs `lockTx`; a winner's completion
event performs the terminal session write and (for `finishDone`) the
finalized-record creation; completion events without an active winner do
not occur in a real run and are no-ops. -/

def procStep (now : Nat) : ProcEvent → ConcState → ConcState
  | .trigger, s =>
    match lockTx s.doc now with
    | (none, d) => { s with doc := d }
    | (some _, d) =>
      { doc := d, lockWins := s.lockWins + 1,
        recordsWritten := s.recordsWritten, winnerActive := true }
  | .finishDone, s =>
    if s.winnerActive then
      { doc := { s.doc with status := .done },
        lockWins := s.lockWins,
        recordsWritten := s.recordsWritten + 1, winnerActive := false }
    else s
  | .finishError, s =>
    if s.winnerActive then
      { doc := { s.doc with status := .error },
        lockWins := s.lockWins,
        recordsWritten := s.recordsWritten, winnerActive := false }
    else s

/-- Run a serialized interleaving of events. -/

def runProc (now : Nat) (events : List ProcEvent) (s : ConcState) : ConcState :=
  events.foldl (fun st e => procStep now e st) s

/-- A concrete finalized record for the C7 witness: `totalAmount = 100`,
`paidAmount = 40`, owned by `owner-1`. -/

def c7Record : InvoiceRecord :=
  { invoiceId := "inv-7", supplierId := "123456789",
    uploadedBy := some "owner-1", supplierName := some "ACME",
    supplierTaxNumber := some "123456789", invoiceNumber := some "42",
    invoiceDate := none, dueDate := none, totalAmount := some 100,
    netAmount := none, vatAmount := none, vatRate := none, currency := "EUR",
    confidence := none, processingStatus := .uploaded,
    paymentStatus := some .partiallyPaid, paidAmount := some 40,
    unpaidAmount := some 60, paymentHistory := [], filePath := none }

/-- A partial payment of 70 against an outstanding balance of 60. -/

def c7OverpayBody : PaymentBody :=
  { action := .partialPay, amount := some 70, paymentMethod := none,
    notes := none, paymentDate := none }

/-! ### Concrete processing fixtures -/

/-- An environment whose external calls all succeed, parameterized by the
extraction outcome and the artifact/record write outcomes. -/

def demoEnv (ocr : Except String (Option OcrExtract))
    (pdfSave recordSet : Except String Unit) : ProcEnv :=
  { ocrConfigured := true, defaultBucket := some "bucket",
    buildPdf := .ok (), ocr := ocr, pdfSave := pdfSave, recordSet := recordSet,
    parseDateO := fun _ => none, now := 100 }

/-- A single uploaded page. -/

def demoPage : PageRecord :=
  { pageNumber := 1, objectName := "uploads/inv/page-001-a.jpg",
    bucket := some "bucket", contentType := "image/jpeg", recordedAt := 1 }

/-- A one-page session in `ready` state. -/

def readyDoc : SessionDoc :=
  { ownerUid := some "owner-1", bucket := some "bucket", status := .ready,
    totalPages := some 1, uploadedPages := [1], uploadedCount := 1,
    pages := [demoPage], readyAt := some 2, processingStartedAt := none,
    errorMessage := none, duplicateOf := none, successMessage := none }

/-- An extraction result whose `totalAmount` is the grouped string
`"1.234,56"`. -/

def c6Fields : OcrExtract :=
  { invoiceDate := none, invoiceNumber := some "090748",
    supplierName := some "ACME AE", supplierTaxNumber := some "123456789",
    netAmount := none, vat := none, totalAmount := some "1.234,56",
    confidence := none }

/-- Sort comparator for page records. -/

def pageLe (a b : PageRecord) : Bool := a.pageNumber ≤ b.pageNumber

/-- The finalized record produced by the first demo processing run. -/

def c5FirstRecord : InvoiceRecord :=
  { invoiceId := "inv-1"
    supplierId := sanitizeId (some "123456789") (sanitizeId (some "ACME AE") "unknown-supplier")
    uploadedBy := jsOrNull (some "owner-1")
    supplierName := some (jsOrStr' (some "ACME AE") "Unknown Supplier")
    supplierTaxNumber := jsOrNull (some "123456789")
    invoiceNumber := normalizeInvoiceNumber (some "090748")
    invoiceDate := none
    dueDate := none
    totalAmount := parseAmount (some "1.234,56")
    netAmount := parseAmount none
    vatAmount := parseAmount none
    vatRate := parseAmount none
    currency := "EUR"
    confidence := jsConfidence none
    processingStatus := .uploaded
    paymentStatus := some .unpaid
    paidAmount := none
    unpaidAmount := parseAmount (some "1.234,56")
    paymentHistory := []
    filePath := some ("suppliers/" ++
      sanitizeId (some "123456789") (sanitizeId (some "ACME AE") "unknown-supplier") ++
      "/invoices/" ++ "inv-1" ++ ".pdf") }

/-- Invariant of the serialized race started from a `ready` session: the
counters are determined by the session status. -/

def concInv (s : ConcState) : Prop :=
  (s.doc.status = .ready ∧ s.lockWins = 0 ∧ s.recordsWritten = 0 ∧ s.winnerActive = false) ∨
  (s.doc.status = .processing ∧ s.lockWins = 1 ∧ s.recordsWritten = 0 ∧ s.winnerActive = true) ∨
  (s.doc.status = .done ∧ s.lockWins = 1 ∧ s.recordsWritten = 1 ∧ s.winnerActive = false) ∨
  (s.doc.status = .error ∧ s.lockWins = 1 ∧ s.recordsWritten = 0 ∧ s.winnerActive = false)

/-- Status edge allowed by the amended state machine: unchanged, or
`pending → ready`, `ready → processing`, `processing → done`,
`processing → error`, or — only when the OCR client is missing —
`ready → error`. -/

def allowedTransition (ocrMissing : Bool) (a b : InvoiceStatus) : Prop :=
  a = b ∨ (a = .pending ∧ b = .ready) ∨ (a = .ready ∧ b = .processing) ∨
  (a = .processing ∧ b = .done) ∨ (a = .processing ∧ b = .error) ∨
  (a = .ready ∧ b = .error ∧ ocrMissing = true)

/-- Every consecutive pair of status writes follows `allowedTransition`. -/

def statusChainOk (ocrMissing : Bool) : InvoiceStatus → List InvoiceStatus → Prop
  | _, [] => True
  | a, b :: rest => allowedTransition ocrMissing a b ∧ statusChainOk ocrMissing b rest

/-- One registration request (arguments of `registerUploadedPage` after
page-number normalization, which guarantees positivity). -/

structure RegisterReq where
  pageNumber : Nat
  objectName : String
  bucketName : Option String
  contentType : String
  totalPages : Option Nat
  uid : Option String
  now : Nat
  deriving Repr

/-- Apply one registration transaction; a thrown error aborts the
transaction, leaving the stored document unchanged. -/

def applyRegister (d : SessionDoc) (r : RegisterReq) : SessionDoc :=
  match registerUploadedPage (some d) r.pageNumber r.objectName r.bucketName
    r.contentType r.totalPages r.uid r.now with
  | .ok d' => d'
  | .error _ => d

/-- Serialized sequence of registration transactions. -/

def runRegisters (d : SessionDoc) (reqs : List RegisterReq) : SessionDoc :=
  reqs.foldl applyRegister d

/-- Session invariant maintained by registrations on a session created
with `totalPages = n`. -/

def SessionInv (n : Nat) (d : SessionDoc) : Prop :=
  d.totalPages = some n ∧
  d.uploadedPages.Nodup ∧
  (∀ p ∈ d.uploadedPages, 1 ≤ p ∧ p ≤ n) ∧
  (d.pages.map PageRecord.pageNumber).Nodup ∧
  (d.status = .pending ∨ d.status = .ready) ∧
  (d.status = .ready ↔ d.uploadedPages.length = n)

/-- A freshly created two-page session (the document
`ensureInvoiceDocument` creates for `totalPages = 2`). -/

def c2Fresh2 : SessionDoc :=
  { ownerUid := some "owner-1", bucket := some "bucket", status := .pending,
    totalPages := some 2, uploadedPages := [], uploadedCount := 0, pages := [],
    readyAt := none, processingStartedAt := none, errorMessage := none,
    duplicateOf := none, successMessage := none }

/-- A registration request for page `p` of the demo session. -/

def c2Req (p : Nat) (objName : String) : RegisterReq :=
  { pageNumber := p, objectName := objName, bucketName := some "bucket",
    contentType := "image/jpeg", totalPages := none, uid := some "owner-1",
    now := 3 }

/-- A freshly created one-page session for the C3 witness. -/

def c3PendingDoc : SessionDoc :=
  { ownerUid := some "owner-1", bucket := some "bucket", status := .pending,
    totalPages := some 1, uploadedPages := [], uploadedCount := 0, pages := [],
    readyAt := none, processingStartedAt := none, errorMessage := none,
    duplicateOf := none, successMessage := none }

/-! ## Claims -/

/-- C9: `derivePaymentStatus(paid, total)` returns, when `total > 0`:
`unpaid` if `paid = 0`, `partially_paid` if `0 < paid < total`, and `paid`
if `paid ≥ total`; and when `total` is unknown (`≤ 0` or absent):
`partially_paid` if `paid > 0` and `unpaid` otherwise. -/

theorem c9_derivePaymentStatus_cases (paid : ℚ) (total : Option ℚ) :
    (∀ t, total = some t → 0 < t →
      (paid = 0 → derivePaymentStatus paid total = .unpaid) ∧
      (0 < paid → paid < t → derivePaymentStatus paid total = .partiallyPaid) ∧
      (t ≤ paid → derivePaymentStatus paid total = .paid)) ∧
    ((total = none ∨ ∃ t, total = some t ∧ t ≤ 0) →
      (0 < paid → derivePaymentStatus paid total = .partiallyPaid) ∧
      (paid ≤ 0 → derivePaymentStatus paid total = .unpaid)) := by
  constructor
  · rintro t rfl ht
    have h1 : ¬(t = 0 ∨ t ≤ 0) := by
      push_neg
      exact ⟨ne_of_gt ht, ht⟩
    refine ⟨?_, ?_, ?_⟩
    · rintro rfl
      simp [derivePaymentStatus, h1, not_le.mpr ht]
    · intro hp hlt
      simp [derivePaymentStatus, h1, not_le.mpr hlt, hp]
    · intro hge
      simp [derivePaymentStatus, h1, hge]
  · rintro (rfl | ⟨t, rfl, ht⟩)
    · constructor
      · intro hp
        simp [derivePaymentStatus, hp]
      · intro hp
        simp [derivePaymentStatus, not_lt.mpr hp]
    · have h1 : t = 0 ∨ t ≤ 0 := Or.inr ht
      constructor
      · intro hp
        simp [derivePaymentStatus, h1, hp]
      · intro hp
        simp [derivePaymentStatus, h1, not_lt.mpr hp]

/-- Witness for C9 at concrete inputs. -/

theorem c9_derivePaymentStatus_cases_witness :
    derivePaymentStatus 0 (some 100) = .unpaid ∧
    derivePaymentStatus 40 (some 100) = .partiallyPaid ∧
    derivePaymentStatus 100 (some 100) = .paid ∧
    derivePaymentStatus 5 none = .partiallyPaid ∧
    derivePaymentStatus 0 (some (-3)) = .unpaid :=
  ⟨((c9_derivePaymentStatus_cases 0 (some 100)).1 100 rfl (by norm_num)).1 rfl,
   ((c9_derivePaymentStatus_cases 40 (some 100)).1 100 rfl (by norm_num)).2.1
     (by norm_num) (by norm_num),
   ((c9_derivePaymentStatus_cases 100 (some 100)).1 100 rfl (by norm_num)).2.2
     (by norm_num),
   ((c9_derivePaymentStatus_cases 5 none).2 (Or.inl rfl)).1 (by norm_num),
   ((c9_derivePaymentStatus_cases 0 (some (-3))).2
     (Or.inr ⟨-3, rfl, by norm_num⟩)).2 (by norm_num)⟩

/-- C7: against a record with `totalAmount > 0`, a call whose effective
payment amount exceeds the outstanding balance by more than the `0.01`
tolerance is rejected with a 400 validation error (the transaction aborts,
so the stored record is unchanged), and every accepted call leaves
`paidAmount ≤ totalAmount + 0.01` with `totalAmount` untouched — so along
any sequence of accepted calls the bound always holds. -/

theorem c7_updatePaymentStatus_overpayment (record : InvoiceRecord)
    (body : PaymentBody) (uid : String) (now : Nat) (t : ℚ)
    (ht : record.totalAmount = some t) (htpos : 0 < t) :
    (validatePaymentRequest body = [] →
     uploadedByMismatch record.uploadedBy uid = false →
     effectivePaymentAmount record body > (t - record.paidAmount.getD 0) + 0.01 →
     updatePaymentStatus (some record) body uid now =
       .error { message := "Payment amount exceeds unpaid balance", httpStatus := 400 }) ∧
    (∀ rec', updatePaymentStatus (some record) body uid now = .ok rec' →
     rec'.totalAmount = some t ∧ rec'.paidAmount.getD 0 ≤ t + 0.01) := by
  constructor
  · intro hval hown hover
    rw [updatePaymentStatus]
    rw [if_neg (by simp [hval])]
    rw [if_neg (by simp [hown])]
    have hguard : record.totalAmount.getD 0 > 0 ∧
        effectivePaymentAmount record body >
          record.totalAmount.getD 0 - record.paidAmount.getD 0 + 0.01 := by
      rw [ht]
      exact ⟨htpos, by simpa using hover⟩
    rw [if_pos hguard]
  · intro rec' hok
    rw [updatePaymentStatus] at hok
    by_cases hval : validatePaymentRequest body = []
    · rw [if_neg (by simp [hval])] at hok
      by_cases hown : uploadedByMismatch record.uploadedBy uid = true
      · simp [hown] at hok
      · rw [if_neg hown] at hok
        by_cases hguard : record.totalAmount.getD 0 > 0 ∧
            effectivePaymentAmount record body >
              (record.totalAmount.getD 0 - record.paidAmount.getD 0) + 0.01
        · rw [if_pos hguard] at hok
          cases hok
        · rw [if_neg hguard] at hok
          by_cases hpaid : record.paymentStatus = some .paid
          · rw [if_pos hpaid] at hok
            cases hok
          · rw [if_neg hpaid] at hok
            cases hok
            constructor
            · simpa using ht
            · simp only [ht, Option.getD_some] at hguard ⊢
              push_neg at hguard
              have := hguard htpos
              linarith
    · rw [if_pos (by simp [hval])] at hok
      cases hok

/-- Witness for C7: the overpaying call is rejected with the 400 error. -/

theorem c7_updatePaymentStatus_overpayment_witness :
    updatePaymentStatus (some c7Record) c7OverpayBody "owner-1" 5 =
      .error { message := "Payment amount exceeds unpaid balance", httpStatus := 400 } :=
  (c7_updatePaymentStatus_overpayment c7Record c7OverpayBody "owner-1" 5 100
      rfl (by norm_num)).1
    (by norm_num [validatePaymentRequest, c7OverpayBody])
    (by simp [uploadedByMismatch, c7Record])
    (by norm_num [effectivePaymentAmount, c7Record, c7OverpayBody])

/-- C10: `updateInvoiceFields` performs no ownership check — for an
existing record owned by `owner ≠ uid`, a valid patch is still applied —
whereas `updatePaymentStatus` rejects the same non-owner actor with an
HTTP 403 error before making any change (the transaction aborts). -/

theorem c10_updateInvoiceFields_no_ownership_check
    (record : InvoiceRecord) (fields : FieldPatch) (uid owner : String)
    (hrec : record.uploadedBy = some owner) (howner : owner ≠ "") (hne : owner ≠ uid) :
    (validateUpdateFieldsRequest fields = [] →
     fields.paidAmount.getD (record.paidAmount.getD 0) ≤
       fields.totalAmount.getD (record.totalAmount.getD 0) + 0.01 →
     ∃ rec', updateInvoiceFields (some record) fields uid = .ok rec' ∧
       rec'.supplierName = fields.supplierName.or record.supplierName ∧
       rec'.totalAmount = fields.totalAmount.or record.totalAmount ∧
       rec'.paidAmount = fields.paidAmount.or record.paidAmount) ∧
    (∀ body now, validatePaymentRequest body = [] →
     updatePaymentStatus (some record) body uid now =
       .error { message := "You are not authorized to update this invoice",
                httpStatus := 403 }) := by
  constructor
  · intro hval hbound
    rw [updateInvoiceFields]
    rw [if_neg (by simp [hval])]
    by_cases hamt : fields.totalAmount ≠ none ∨ fields.paidAmount ≠ none
    · rw [if_pos hamt]
      rw [if_neg (not_lt.mpr hbound)]
      exact ⟨_, rfl, rfl, rfl, rfl⟩
    · rw [if_neg hamt]
      exact ⟨_, rfl, rfl, rfl, rfl⟩
  · intro body now hbval
    rw [updatePaymentStatus]
    rw [if_neg (by simp [hbval])]
    rw [if_pos (by simp [uploadedByMismatch, hrec, howner, hne])]

/-- Witness for C10: a non-owner edits `supplierName` successfully, while
the same non-owner's payment call gets a 403. -/

theorem c10_updateInvoiceFields_no_ownership_check_witness :
    (∃ rec', updateInvoiceFields (some c7Record)
        { FieldPatch.empty with supplierName := some "Intruder Inc" } "intruder" = .ok rec' ∧
      rec'.supplierName = some "Intruder Inc" ∧
      rec'.totalAmount = some 100 ∧ rec'.paidAmount = some 40) ∧
    updatePaymentStatus (some c7Record) c7OverpayBody "intruder" 5 =
      .error { message := "You are not authorized to update this invoice",
               httpStatus := 403 } := by
  have h := c10_updateInvoiceFields_no_ownership_check c7Record
    { FieldPatch.empty with supplierName := some "Intruder Inc" } "intruder" "owner-1"
    rfl (by decide) (by decide)
  constructor
  · have h1 := h.1 (by simp [validateUpdateFieldsRequest, FieldPatch.empty])
      (by norm_num [FieldPatch.empty, c7Record])
    simpa [FieldPatch.empty, c7Record] using h1
  · exact h.2 c7OverpayBody 5 (by norm_num [validatePaymentRequest, c7OverpayBody])

/-- Closed form of the three-attempt loop: the result of the first
attempt producing a non-empty structured result, else the last error
(the produced-no-result message when the last attempt was falsy). -/

theorem ocrLoop3_eq {R : Type} (f : Nat → Except String (Option R)) :
    ocrLoopGo f 3 1 none =
      (match f 1 with
       | .ok (some r) => .ok r
       | _ =>
         match f 2 with
         | .ok (some r) => .ok r
         | _ =>
           match f 3 with
           | .ok (some r) => .ok r
           | .ok none => .error noResultMessage
           | .error e => .error e) := by
  have step3 : ocrLoopGo f 3 1 none =
      (match f 1 with
       | .ok (some r) => .ok r
       | .ok none => ocrLoopGo f 2 2 (some noResultMessage)
       | .error e => ocrLoopGo f 2 2 (some e)) := rfl
  have step2 : ∀ le, ocrLoopGo f 2 2 le =
      (match f 2 with
       | .ok (some r) => .ok r
       | .ok none => ocrLoopGo f 1 3 (some noResultMessage)
       | .error e => ocrLoopGo f 1 3 (some e)) := fun _ => rfl
  have step1 : ∀ le, ocrLoopGo f 1 3 le =
      (match f 3 with
       | .ok (some r) => .ok r
       | .ok none => ocrLoopGo f 0 4 (some noResultMessage)
       | .error e => ocrLoopGo f 0 4 (some e)) := fun _ => rfl
  have step0 : ∀ a le, ocrLoopGo f 0 a le = .error (le.getD exhaustedMessage) :=
    fun _ _ => rfl
  rw [step3]
  cases hf1 : f 1 with
  | ok o1 =>
    cases o1 with
    | some r => rfl
    | none =>
      dsimp only
      rw [step2]
      cases hf2 : f 2 with
      | ok o2 =>
        cases o2 with
        | some r => rfl
        | none =>
          dsimp only
          rw [step1]
          cases hf3 : f 3 with
          | ok o3 =>
            cases o3 with
            | some r => rfl
            | none => dsimp only; rw [step0]; rfl
          | error e3 => dsimp only; rw [step0]; rfl
      | error e2 =>
        dsimp only
        rw [step1]
        cases hf3 : f 3 with
        | ok o3 =>
          cases o3 with
          | some r => rfl
          | none => dsimp only; rw [step0]; rfl
        | error e3 => dsimp only; rw [step0]; rfl
  | error e1 =>
    dsimp only
    rw [step2]
    cases hf2 : f 2 with
    | ok o2 =>
      cases o2 with
      | some r => rfl
      | none =>
        dsimp only
        rw [step1]
        cases hf3 : f 3 with
        | ok o3 =>
          cases o3 with
          | some r => rfl
          | none => dsimp only; rw [step0]; rfl
        | error e3 => dsimp only; rw [step0]; rfl
    | error e2 =>
      dsimp only
      rw [step1]
      cases hf3 : f 3 with
      | ok o3 =>
        cases o3 with
        | some r => rfl
        | none => dsimp only; rw [step0]; rfl
      | error e3 => dsimp only; rw [step0]; rfl

/-- C8: with the client configured and page buffers present, the retry loop
makes at most 3 attempts — the result depends only on the outcomes of
attempts 1, 2 and 3 over the same buffers — returns the result of the first
attempt that produces a non-empty structured result, and when all 3
attempts are exhausted without a non-empty result it raises the last error
encountered (the last thrown error, or the produced-no-result error when
the last attempt returned a falsy value). -/

theorem c8_runInvoiceOcr_retry {R : Type} (f : Nat → Except String (Option R)) :
    (∀ g : Nat → Except String (Option R),
      g 1 = f 1 → g 2 = f 2 → g 3 = f 3 →
      runInvoiceOcr true true g = runInvoiceOcr true true f) ∧
    (∀ r : R, f 1 = .ok (some r) → runInvoiceOcr true true f = .ok (some r)) ∧
    (∀ r : R, (f 1 = .ok none ∨ ∃ e, f 1 = .error e) → f 2 = .ok (some r) →
      runInvoiceOcr true true f = .ok (some r)) ∧
    (∀ r : R, (f 1 = .ok none ∨ ∃ e, f 1 = .error e) →
      (f 2 = .ok none ∨ ∃ e, f 2 = .error e) → f 3 = .ok (some r) →
      runInvoiceOcr true true f = .ok (some r)) ∧
    ((f 1 = .ok none ∨ ∃ e, f 1 = .error e) →
     (f 2 = .ok none ∨ ∃ e, f 2 = .error e) →
     (f 3 = .ok none ∨ ∃ e, f 3 = .error e) →
     runInvoiceOcr true true f =
       .error (match f 3 with | .error e => e | _ => noResultMessage)) := by
  have hwrap : ∀ h : Nat → Except String (Option R),
      runInvoiceOcr true true h =
        (match ocrLoopGo h 3 1 none with
         | .ok r => .ok (some r)
         | .error e => .error e) := fun _ => rfl
  refine ⟨?_, ?_, ?_, ?_, ?_⟩
  · intro g h1 h2 h3
    rw [hwrap, hwrap, ocrLoop3_eq, ocrLoop3_eq, h1, h2, h3]
  · intro r h1
    rw [hwrap, ocrLoop3_eq, h1]
  · intro r h1 h2
    rw [hwrap, ocrLoop3_eq, h2]
    rcases h1 with h1 | ⟨e, h1⟩ <;> rw [h1]
  · intro r h1 h2 h3
    rw [hwrap, ocrLoop3_eq, h3]
    rcases h1 with h1 | ⟨e, h1⟩ <;> rw [h1] <;>
      rcases h2 with h2 | ⟨e2, h2⟩ <;> rw [h2]
  · intro h1 h2 h3
    rw [hwrap, ocrLoop3_eq]
    rcases h1 with h1 | ⟨e, h1⟩ <;> rw [h1] <;>
      rcases h2 with h2 | ⟨e2, h2⟩ <;> rw [h2] <;>
      rcases h3 with h3 | ⟨e3, h3⟩ <;> rw [h3]

/-- Witness for C8: first two attempts fail, the third succeeds and its
result is returned; a run with all attempts failing raises the last error. -/

theorem c8_runInvoiceOcr_retry_witness :
    runInvoiceOcr true true
      (fun i => if i = 1 then (.error "boom1" : Except String (Option Nat))
                else if i = 2 then .ok none else .ok (some 7)) = .ok (some 7) ∧
    runInvoiceOcr true true
      (fun i => if i = 3 then (.error "boom3" : Except String (Option Nat))
                else .ok none) = .error "boom3" := by
  constructor
  · exact (c8_runInvoiceOcr_retry _).2.2.2.1 7
      (Or.inr ⟨"boom1", by norm_num⟩) (Or.inl (by norm_num)) (by norm_num)
  · have h := (c8_runInvoiceOcr_retry
      (fun i => if i = 3 then (.error "boom3" : Except String (Option Nat))
                else .ok none)).2.2.2.2
      (Or.inl (by norm_num)) (Or.inl (by norm_num))
      (Or.inr ⟨"boom3", by norm_num⟩)
    simpa using h

/-- `parseAmount` drops the comma of a grouped string: `"1.234,56" ↦ 1.23456`. -/

theorem parseAmount_grouped : parseAmount (some "1.234,56") = some 1.23456 := by
  have h1 : ("1.234,56").data.filter isAmountChar = ['1','.','2','3','4','5','6'] := by
    decide
  simp only [parseAmount, h1]
  simp +decide [jsNumber, digitsToNat]
  norm_num

/-- C6 counterexample: when extraction returns `totalAmount = "1.234,56"`,
the finalized record persists `1.23456`, not the canonical `1234.56` — the
grouped-format conversion is not applied to extracted values. -/

theorem c6_persisted_amount_counterexample :
    (processInvoiceDocument (demoEnv (.ok (some c6Fields)) (.ok ()) (.ok ()))
        none readyDoc "inv-6" []).db.map (fun r => r.totalAmount) =
      [some 1.23456] ∧ (1.23456 : ℚ) ≠ 1234.56 := by
  constructor
  · have h : (processInvoiceDocument (demoEnv (.ok (some c6Fields)) (.ok ()) (.ok ()))
        none readyDoc "inv-6" []).db.map (fun r => r.totalAmount) =
        [parseAmount (some "1.234,56")] := rfl
    rw [h, parseAmount_grouped]
  · norm_num

/-- C6 amended: the grouped-digit conversion is performed by
`normalizeEuropeanDecimals` on the OCR text before extraction
(`"1.234,56" → "1234.56"`), and `parseAmount` yields the canonical numeric
value on the already-normalized dot-decimal string; `parseAmount` applied
directly to a grouped string merely strips the comma (`1.23456`). -/

theorem c6_normalization_amended :
    normalizeEuropeanDecimals "1.234,56" = "1234.56" ∧
    parseAmount (some "1234.56") = some 1234.56 ∧
    parseAmount (some "1.234,56") = some 1.23456 := by
  refine ⟨by decide, ?_, parseAmount_grouped⟩
  have h1 : ("1234.56").data.filter isAmountChar = ['1','2','3','4','.','5','6'] := by
    decide
  simp only [parseAmount, h1]
  simp +decide [jsNumber, digitsToNat]
  norm_num

/-- When the trigger fires on a `ready` session with the OCR client
configured, a bucket resolvable, pages present and the page count
matching, the invocation reaches the processing steps with the session
locked to `processing`. -/

theorem processInvoiceDocument_reaches_steps (env : ProcEnv)
    (beforeStatus : Option InvoiceStatus) (doc : SessionDoc)
    (invoiceId : String) (db : List InvoiceRecord)
    (hready : doc.status = .ready) (hb : beforeStatus ≠ some .ready)
    (hocr : env.ocrConfigured = true)
    (hpages : (insertionSort pageLe doc.pages).length ≠ 0)
    (hcount : pageCountMismatch doc.totalPages
      (insertionSort pageLe doc.pages).length = false)
    (b : String) (hbucket : jsOrStr doc.bucket env.defaultBucket = some b) :
    processInvoiceDocument env beforeStatus doc invoiceId db =
      processSteps env invoiceId doc (lockedSession doc env.now) db := by
  have hlock : lockTx doc env.now = (some doc, lockedSession doc env.now) := by
    rw [lockTx, if_neg (by simp [hready])]
  rw [processInvoiceDocument]
  rw [if_neg (by rw [hready]; exact hb)]
  rw [if_neg (by simp [hready])]
  rw [if_neg (by simp [hocr])]
  rw [hlock]
  show (match jsOrStr doc.bucket env.defaultBucket with
        | none => _
        | some _ => _) = _
  rw [hbucket]
  simp only
  rw [if_neg (by simpa [pageLe] using hpages)]
  rw [if_neg (by simpa [pageLe] using hcount)]

/-- C4 counterexample: a failure while persisting the combined artifact to
durable storage is caught by a local handler and swallowed — the
processing attempt still marks the session `done` with no error message,
even though the artifact was never stored. -/

theorem c4_pdf_save_swallowed_counterexample :
    ((processInvoiceDocument
        (demoEnv (.ok (some c6Fields)) (.error "storage write failed") (.ok ()))
        none readyDoc "inv-4" []).doc.status = .done) ∧
    ((processInvoiceDocument
        (demoEnv (.ok (some c6Fields)) (.error "storage write failed") (.ok ()))
        none readyDoc "inv-4" []).artifactWritten = false) ∧
    ((processInvoiceDocument
        (demoEnv (.ok (some c6Fields)) (.error "storage write failed") (.ok ()))
        none readyDoc "inv-4" []).doc.errorMessage = none) :=
  ⟨rfl, rfl, rfl⟩

/-- C4 amended: every exception in a processing step other than artifact
persistence — PDF assembly, extraction (a thrown error or an empty
result), record creation — is caught by the enclosing handler, which marks
the session `error` with a message carrying the exception text and leaves
the record store unchanged; but a failure persisting the combined artifact
is caught by a local handler, logged and swallowed, and such an attempt
still ends `done`. -/

theorem c4_error_handling_amended (env : ProcEnv)
    (beforeStatus : Option InvoiceStatus) (doc : SessionDoc)
    (invoiceId : String) (db : List InvoiceRecord)
    (hready : doc.status = .ready) (hb : beforeStatus ≠ some .ready)
    (hocr : env.ocrConfigured = true)
    (hpages : (insertionSort pageLe doc.pages).length ≠ 0)
    (hcount : pageCountMismatch doc.totalPages
      (insertionSort pageLe doc.pages).length = false)
    (b : String) (hbucket : jsOrStr doc.bucket env.defaultBucket = some b) :
    (∀ e, env.buildPdf = .error e →
      (processInvoiceDocument env beforeStatus doc invoiceId db).doc.status = .error ∧
      (processInvoiceDocument env beforeStatus doc invoiceId db).doc.errorMessage =
        some (formatMetadataError none none
          ("Αδυναμία επεξεργασίας τιμολογίου με id: " ++ invoiceId ++ ". Σφάλμα: " ++ e)) ∧
      (processInvoiceDocument env beforeStatus doc invoiceId db).db = db) ∧
    (∀ e, env.buildPdf = .ok () → env.ocr = .error e →
      (processInvoiceDocument env beforeStatus doc invoiceId db).doc.status = .error ∧
      (processInvoiceDocument env beforeStatus doc invoiceId db).doc.errorMessage =
        some (formatMetadataError none none
          ("Αδυναμία επεξεργασίας τιμολογίου με id: " ++ invoiceId ++ ". Σφάλμα: " ++ e)) ∧
      (processInvoiceDocument env beforeStatus doc invoiceId db).db = db) ∧
    (env.buildPdf = .ok () → env.ocr = .ok none →
      (processInvoiceDocument env beforeStatus doc invoiceId db).doc.status = .error ∧
      (processInvoiceDocument env beforeStatus doc invoiceId db).doc.errorMessage =
        some (formatMetadataError none none
          ("Αδυναμία επεξεργασίας τιμολογίου με id: " ++ invoiceId ++ ". Σφάλμα: " ++
            "OCR result was empty.")) ∧
      (processInvoiceDocument env beforeStatus doc invoiceId db).db = db) ∧
    (∀ fields e, env.buildPdf = .ok () → env.ocr = .ok (some fields) →
      (∀ inv, normalizeInvoiceNumber fields.invoiceNumber = some inv →
        findDuplicate db (sanitizeId fields.supplierTaxNumber
          (sanitizeId fields.supplierName "unknown-supplier")) inv = none) →
      env.recordSet = .error e →
      (processInvoiceDocument env beforeStatus doc invoiceId db).doc.status = .error ∧
      (processInvoiceDocument env beforeStatus doc invoiceId db).db = db) ∧
    (∀ fields e, env.buildPdf = .ok () → env.ocr = .ok (some fields) →
      (∀ inv, normalizeInvoiceNumber fields.invoiceNumber = some inv →
        findDuplicate db (sanitizeId fields.supplierTaxNumber
          (sanitizeId fields.supplierName "unknown-supplier")) inv = none) →
      env.pdfSave = .error e → env.recordSet = .ok () →
      (processInvoiceDocument env beforeStatus doc invoiceId db).doc.status = .done ∧
      (processInvoiceDocument env beforeStatus doc invoiceId db).artifactWritten = false) := by
  have hsteps := processInvoiceDocument_reaches_steps env beforeStatus doc invoiceId db
    hready hb hocr hpages hcount b hbucket
  refine ⟨?_, ?_, ?_, ?_, ?_⟩
  · intro e hpdf
    rw [hsteps, processSteps, hpdf]
    exact ⟨rfl, rfl, rfl⟩
  · intro e hpdf hocr'
    rw [hsteps, processSteps, hpdf, hocr']
    exact ⟨rfl, rfl, rfl⟩
  · intro hpdf hocr'
    rw [hsteps, processSteps, hpdf, hocr']
    exact ⟨rfl, rfl, rfl⟩
  · intro fields e hpdf hocr' hdup hrec
    rw [hsteps, processSteps, hpdf, hocr']
    simp only
    cases hinv : normalizeInvoiceNumber fields.invoiceNumber with
    | some inv =>
      dsimp only
      rw [hdup inv hinv]
      rw [processFinalize, hrec]
      exact ⟨rfl, rfl⟩
    | none =>
      dsimp only
      rw [processFinalize, hrec]
      exact ⟨rfl, rfl⟩
  · intro fields e hpdf hocr' hdup hsave hrec
    rw [hsteps, processSteps, hpdf, hocr']
    simp only
    cases hinv : normalizeInvoiceNumber fields.invoiceNumber with
    | some inv =>
      dsimp only
      rw [hdup inv hinv]
      rw [processFinalize, hrec, hsave]
      exact ⟨rfl, rfl⟩
    | none =>
      dsimp only
      rw [processFinalize, hrec, hsave]
      exact ⟨rfl, rfl⟩

/-- Witness for C4 at a concrete session/environment: the artifact write
fails, every other step succeeds, and the session still ends `done`. -/

theorem c4_error_handling_amended_witness :
    ((processInvoiceDocument
        (demoEnv (.ok (some c6Fields)) (.error "storage write failed") (.ok ()))
        none readyDoc "inv-4w" []).doc.status = .done) ∧
    ((processInvoiceDocument
        (demoEnv (.ok (some c6Fields)) (.error "storage write failed") (.ok ()))
        none readyDoc "inv-4w" []).artifactWritten = false) :=
  (c4_error_handling_amended
      (demoEnv (.ok (some c6Fields)) (.error "storage write failed") (.ok ()))
      none readyDoc "inv-4w" [] rfl (by simp) rfl (by decide) (by decide)
      "bucket" rfl).2.2.2.2 c6Fields "storage write failed" rfl rfl
    (fun inv _ => rfl) rfl rfl

/-- C5: when the duplicate query for the derived issuer id and the
digit-normalized extracted document number finds an existing finalized
record, the orchestrator writes `error` on the session with a message and
`duplicateOf` referencing the existing record's id, creates no finalized
record (the store is unchanged) and does not write the artifact. -/

theorem c5_duplicate_detection (env : ProcEnv)
    (beforeStatus : Option InvoiceStatus) (doc : SessionDoc)
    (invoiceId : String) (db : List InvoiceRecord)
    (hready : doc.status = .ready) (hb : beforeStatus ≠ some .ready)
    (hocr : env.ocrConfigured = true)
    (hpages : (insertionSort pageLe doc.pages).length ≠ 0)
    (hcount : pageCountMismatch doc.totalPages
      (insertionSort pageLe doc.pages).length = false)
    (b : String) (hbucket : jsOrStr doc.bucket env.defaultBucket = some b)
    (fields : OcrExtract) (hpdf : env.buildPdf = .ok ())
    (hocr' : env.ocr = .ok (some fields))
    (inv : String) (hinv : normalizeInvoiceNumber fields.invoiceNumber = some inv)
    (ex : InvoiceRecord)
    (hdup : findDuplicate db (sanitizeId fields.supplierTaxNumber
      (sanitizeId fields.supplierName "unknown-supplier")) inv = some ex) :
    (processInvoiceDocument env beforeStatus doc invoiceId db).doc.status = .error ∧
    (processInvoiceDocument env beforeStatus doc invoiceId db).doc.duplicateOf =
      some ex.invoiceId ∧
    (processInvoiceDocument env beforeStatus doc invoiceId db).doc.errorMessage =
      some (formatMetadataError (some inv)
        (some (jsOrStr' fields.supplierName "Unknown Supplier"))
        ("Διπλότυπο τιμολόγιο (υπάρχον: " ++ ex.invoiceId ++ ")")) ∧
    (processInvoiceDocument env beforeStatus doc invoiceId db).db = db ∧
    (processInvoiceDocument env beforeStatus doc invoiceId db).artifactWritten = false := by
  have hsteps := processInvoiceDocument_reaches_steps env beforeStatus doc invoiceId db
    hready hb hocr hpages hcount b hbucket
  rw [hsteps, processSteps, hpdf, hocr']
  dsimp only
  rw [hinv]
  dsimp only
  rw [hdup]
  exact ⟨rfl, rfl, rfl, rfl, rfl⟩

/-- Witness for C5: two documents from the same issuer with the same
extracted document number — the first run finalizes a record, the second
run against the resulting store ends `error`, references the first
record's id in `duplicateOf`, and leaves the store unchanged. -/

theorem c5_duplicate_detection_witness :
    ((processInvoiceDocument (demoEnv (.ok (some c6Fields)) (.ok ()) (.ok ()))
        none readyDoc "inv-2"
        (processInvoiceDocument (demoEnv (.ok (some c6Fields)) (.ok ()) (.ok ()))
          none readyDoc "inv-1" []).db).doc.status = .error) ∧
    ((processInvoiceDocument (demoEnv (.ok (some c6Fields)) (.ok ()) (.ok ()))
        none readyDoc "inv-2"
        (processInvoiceDocument (demoEnv (.ok (some c6Fields)) (.ok ()) (.ok ()))
          none readyDoc "inv-1" []).db).doc.duplicateOf = some "inv-1") ∧
    ((processInvoiceDocument (demoEnv (.ok (some c6Fields)) (.ok ()) (.ok ()))
        none readyDoc "inv-2"
        (processInvoiceDocument (demoEnv (.ok (some c6Fields)) (.ok ()) (.ok ()))
          none readyDoc "inv-1" []).db).db =
      (processInvoiceDocument (demoEnv (.ok (some c6Fields)) (.ok ()) (.ok ()))
        none readyDoc "inv-1" []).db) ∧
    ((processInvoiceDocument (demoEnv (.ok (some c6Fields)) (.ok ()) (.ok ()))
        none readyDoc "inv-2"
        (processInvoiceDocument (demoEnv (.ok (some c6Fields)) (.ok ()) (.ok ()))
          none readyDoc "inv-1" []).db).artifactWritten = false) := by
  have h := c5_duplicate_detection (demoEnv (.ok (some c6Fields)) (.ok ()) (.ok ()))
    none readyDoc "inv-2"
    (processInvoiceDocument (demoEnv (.ok (some c6Fields)) (.ok ()) (.ok ()))
      none readyDoc "inv-1" []).db
    rfl (by simp) rfl (by decide) (by decide) "bucket" rfl
    c6Fields rfl rfl "090748" rfl c5FirstRecord rfl
  exact ⟨h.1, h.2.1, h.2.2.2.1, h.2.2.2.2⟩

theorem concInv_step (now : Nat) (e : ProcEvent) (s : ConcState)
    (h : concInv s) : concInv (procStep now e s) := by
  cases e with
  | trigger =>
    rcases h with ⟨h1, h2, h3, h4⟩ | ⟨h1, h2, h3, h4⟩ | ⟨h1, h2, h3, h4⟩ | ⟨h1, h2, h3, h4⟩
    · have hlock : lockTx s.doc now = (some s.doc, lockedSession s.doc now) := by
        rw [lockTx, if_neg (by simp [h1])]
      right; left
      simp [procStep, hlock, lockedSession, h2, h3]
    all_goals {
      have hlock : lockTx s.doc now = (none, s.doc) := by
        rw [lockTx, if_pos (by simp [h1])]
      simp only [procStep, hlock, concInv]
      tauto
    }
  | finishDone =>
    rcases h with ⟨h1, h2, h3, h4⟩ | ⟨h1, h2, h3, h4⟩ | ⟨h1, h2, h3, h4⟩ | ⟨h1, h2, h3, h4⟩
    · simp only [procStep, h4, if_false, Bool.false_eq_true, concInv]
      tauto
    · right; right; left
      simp [procStep, h4, h2, h3]
    · simp only [procStep, h4, if_false, Bool.false_eq_true, concInv]
      tauto
    · simp only [procStep, h4, if_false, Bool.false_eq_true, concInv]
      tauto
  | finishError =>
    rcases h with ⟨h1, h2, h3, h4⟩ | ⟨h1, h2, h3, h4⟩ | ⟨h1, h2, h3, h4⟩ | ⟨h1, h2, h3, h4⟩
    · simp only [procStep, h4, if_false, Bool.false_eq_true, concInv]
      tauto
    · right; right; right
      simp [procStep, h4, h2, h3]
    · simp only [procStep, h4, if_false, Bool.false_eq_true, concInv]
      tauto
    · simp only [procStep, h4, if_false, Bool.false_eq_true, concInv]
      tauto

theorem concInv_run (now : Nat) (events : List ProcEvent) (s : ConcState)
    (h : concInv s) : concInv (runProc now events s) := by
  induction events generalizing s with
  | nil => exact h
  | cons e rest ih => exact ih _ (concInv_step now e s h)

/-- A trigger from an invariant state always leaves `lockWins = 1`. -/

theorem lockWins_after_trigger (now : Nat) (s : ConcState) (h : concInv s) :
    (procStep now .trigger s).lockWins = 1 := by
  rcases h with ⟨h1, h2, _, _⟩ | ⟨h1, h2, _, _⟩ | ⟨h1, h2, _, _⟩ | ⟨h1, h2, _, _⟩
  · have hlock : lockTx s.doc now = (some s.doc, lockedSession s.doc now) := by
      rw [lockTx, if_neg (by simp [h1])]
    simp [procStep, hlock, h2]
  all_goals {
    have hlock : lockTx s.doc now = (none, s.doc) := by
      rw [lockTx, if_pos (by simp [h1])]
    simp [procStep, hlock, h2]
  }

/-- Completion events never change `lockWins`. -/

theorem lockWins_no_trigger (now : Nat) (events : List ProcEvent) (s : ConcState)
    (h : ProcEvent.trigger ∉ events) :
    (runProc now events s).lockWins = s.lockWins := by
  induction events generalizing s with
  | nil => rfl
  | cons e rest ih =>
    have he : e ≠ ProcEvent.trigger := fun habs => h (habs ▸ List.mem_cons_self e rest)
    have hrest : ProcEvent.trigger ∉ rest := fun habs => h (List.mem_cons_of_mem e habs)
    rw [runProc, List.foldl_cons]
    rw [show List.foldl (fun st e => procStep now e st) (procStep now e s) rest =
      runProc now rest (procStep now e s) from rfl]
    rw [ih _ hrest]
    cases e with
    | trigger => exact absurd rfl he
    | finishDone =>
      by_cases hw : s.winnerActive = true
      · simp [procStep, hw]
      · simp [procStep, hw]
    | finishError =>
      by_cases hw : s.winnerActive = true
      · simp [procStep, hw]
      · simp [procStep, hw]

/-- Once a trigger has been processed, the final `lockWins` is 1. -/

theorem lockWins_eq_one (now : Nat) (events : List ProcEvent) (s : ConcState)
    (h : concInv s) (htr : ProcEvent.trigger ∈ events) :
    (runProc now events s).lockWins = 1 := by
  induction events generalizing s with
  | nil => cases htr
  | cons e rest ih =>
    rw [runProc, List.foldl_cons]
    rw [show List.foldl (fun st e => procStep now e st) (procStep now e s) rest =
      runProc now rest (procStep now e s) from rfl]
    by_cases hrest : ProcEvent.trigger ∈ rest
    · exact ih _ (concInv_step now e s h) hrest
    · have he : e = ProcEvent.trigger := by
        rcases List.mem_cons.mp htr with h' | h'
        · exact h'.symm
        · exact absurd h' hrest
      subst he
      rw [lockWins_no_trigger now rest _ hrest]
      exact lockWins_after_trigger now s h

/-- C1: starting from a `ready` session, over any serialized interleaving
of processing-trigger lock transactions and winner-completion events:
at most one lock transaction observes `ready` (exactly one as soon as the
trigger has fired at least once) and at most one finalized record is
produced; a lock transaction that observes a status other than `ready`
leaves the state completely unchanged; and the winning lock transaction
moves the session to `processing` with a start timestamp. -/

theorem c1_processing_lock_exclusivity (now : Nat) (d0 : SessionDoc)
    (h0 : d0.status = .ready) (events : List ProcEvent) :
    (runProc now events
      { doc := d0, lockWins := 0, recordsWritten := 0, winnerActive := false }).lockWins ≤ 1 ∧
    (runProc now events
      { doc := d0, lockWins := 0, recordsWritten := 0, winnerActive := false }).recordsWritten ≤ 1 ∧
    (ProcEvent.trigger ∈ events →
      (runProc now events
        { doc := d0, lockWins := 0, recordsWritten := 0, winnerActive := false }).lockWins = 1) ∧
    (∀ s : ConcState, s.doc.status ≠ .ready → procStep now .trigger s = s) ∧
    (∀ d : SessionDoc, d.status = .ready →
      lockTx d now = (some d, lockedSession d now) ∧
      (lockedSession d now).status = .processing ∧
      (lockedSession d now).processingStartedAt = some now) := by
  have hinv0 : concInv
      { doc := d0, lockWins := 0, recordsWritten := 0, winnerActive := false } :=
    Or.inl ⟨h0, rfl, rfl, rfl⟩
  have hinv := concInv_run now events _ hinv0
  refine ⟨?_, ?_, ?_, ?_, ?_⟩
  · rcases hinv with ⟨_, h, _, _⟩ | ⟨_, h, _, _⟩ | ⟨_, h, _, _⟩ | ⟨_, h, _, _⟩ <;>
      simp [h]
  · rcases hinv with ⟨_, _, h, _⟩ | ⟨_, _, h, _⟩ | ⟨_, _, h, _⟩ | ⟨_, _, h, _⟩ <;>
      simp [h]
  · intro htr
    exact lockWins_eq_one now events _ hinv0 htr
  · intro s hs
    have hlock : lockTx s.doc now = (none, s.doc) := by
      rw [lockTx, if_pos (by simp [hs])]
    simp [procStep, hlock]
  · intro d hd
    refine ⟨?_, rfl, rfl⟩
    rw [lockTx, if_neg (by simp [hd])]

/-- Witness for C1: two triggers racing for the same `ready` session
followed by the winner's completion — one lock win, one record. -/

theorem c1_processing_lock_exclusivity_witness :
    ((runProc 100 [.trigger, .trigger, .finishDone]
        { doc := readyDoc, lockWins := 0, recordsWritten := 0,
          winnerActive := false }).lockWins = 1) ∧
    ((runProc 100 [.trigger, .trigger, .finishDone]
        { doc := readyDoc, lockWins := 0, recordsWritten := 0,
          winnerActive := false }).recordsWritten ≤ 1) := by
  have h := c1_processing_lock_exclusivity 100 readyDoc rfl
    [.trigger, .trigger, .finishDone]
  exact ⟨h.2.2.1 (by simp), h.2.1⟩

/-- C3 counterexample: with the OCR client unconfigured, the orchestrator
writes `error` directly on a `ready` session — a `ready → error`
transition (the single status write of that invocation, with no
intermediate `processing`). -/

theorem c3_ready_to_error_counterexample :
    readyDoc.status = .ready ∧
    ((processInvoiceDocument
        { demoEnv (.ok (some c6Fields)) (.ok ()) (.ok ()) with ocrConfigured := false }
        none readyDoc "inv-3" []).doc.status = .error) ∧
    ((processInvoiceDocument
        { demoEnv (.ok (some c6Fields)) (.ok ()) (.ok ()) with ocrConfigured := false }
        none readyDoc "inv-3" []).statusTrace = [.error]) :=
  ⟨rfl, rfl, rfl⟩

/-- The processing steps write either `processing, error` or
`processing, done`. -/

theorem processSteps_trace (env : ProcEnv) (invoiceId : String)
    (invoiceData locked : SessionDoc) (db : List InvoiceRecord) :
    (processSteps env invoiceId invoiceData locked db).statusTrace =
      [.processing, .error] ∨
    (processSteps env invoiceId invoiceData locked db).statusTrace =
      [.processing, .done] := by
  rw [processSteps]
  cases hpdf : env.buildPdf with
  | error e => left; rfl
  | ok u =>
    cases hocr : env.ocr with
    | error e => left; rfl
    | ok o =>
      cases o with
      | none => left; rfl
      | some fields =>
        dsimp only
        have hfin : ∀ sn stn sid invn ub,
            (processFinalize env invoiceId locked db sn stn sid invn ub
              fields).statusTrace = [.processing, .error] ∨
            (processFinalize env invoiceId locked db sn stn sid invn ub
              fields).statusTrace = [.processing, .done] := by
          intro sn stn sid invn ub
          rw [processFinalize]
          cases hrec : env.recordSet with
          | error e => left; rfl
          | ok u2 => right; rfl
        cases hinv : normalizeInvoiceNumber fields.invoiceNumber with
        | some inv =>
          dsimp only
          cases hdup : findDuplicate db (sanitizeId fields.supplierTaxNumber
              (sanitizeId fields.supplierName "unknown-supplier")) inv with
          | some ex => left; rfl
          | none => exact hfin _ _ _ _ _
        | none => exact hfin _ _ _ _ _

/-- C3 amended: session-status writes follow the machine
`pending → ready → processing → {done, error}` — session creation starts
at `pending`, the merge-update path of `ensureInvoiceDocument` never
changes `status`, `registerUploadedPage` only performs `pending → ready`,
and each orchestrator invocation's writes chain along the allowed edges —
except that the orchestrator writes `error` directly from `ready` when the
OCR client is not configured. -/

theorem c3_status_transitions_amended :
    (∀ uid bucket tp d', ensureInvoiceDocument none uid bucket tp = .ok d' →
      d'.status = .pending) ∧
    (∀ d uid bucket tp d', ensureInvoiceDocument (some d) uid bucket tp = .ok d' →
      d'.status = d.status) ∧
    (∀ d p objName bn ct tp uid now d',
      registerUploadedPage (some d) p objName bn ct tp uid now = .ok d' →
      d'.status = d.status ∨ (d.status = .pending ∧ d'.status = .ready)) ∧
    (∀ env beforeStatus d invoiceId db,
      statusChainOk (!env.ocrConfigured) d.status
        (processInvoiceDocument env beforeStatus d invoiceId db).statusTrace) := by
  refine ⟨?_, ?_, ?_, ?_⟩
  · intro uid bucket tp d' h
    rw [ensureInvoiceDocument.eq_def] at h
    cases tp with
    | none => cases h
    | some n =>
      cases h
      rfl
  · intro d uid bucket tp d' h
    rw [ensureInvoiceDocument.eq_def] at h
    dsimp only at h
    by_cases hm : totalPagesMismatch d.totalPages tp = true
    · rw [if_pos hm] at h
      cases h
    · rw [if_neg hm] at h
      cases h
      rfl
  · intro d p objName bn ct tp uid now d' h
    rw [registerUploadedPage] at h
    by_cases hown : ownerMismatch d.ownerUid uid = true
    · rw [if_pos hown] at h
      cases h
    · rw [if_neg hown] at h
      cases hres : jsOrNat d.totalPages tp with
      | none => rw [hres] at h; cases h
      | some resolved =>
        rw [hres] at h
        dsimp only at h
        by_cases hz : resolved = 0
        · rw [if_pos hz] at h
          cases h
        · rw [if_neg hz] at h
          by_cases hmm : totalPagesMismatch (some resolved) tp = true
          · rw [if_pos hmm] at h
            cases h
          · rw [if_neg hmm] at h
            by_cases hpn : resolved < p
            · rw [if_pos hpn] at h
              cases h
            · rw [if_neg hpn] at h
              cases h
              by_cases hready : (setAdd p d.uploadedPages).length = resolved ∧
                  d.status = .pending
              · right
                exact ⟨hready.2, by simp [hready]⟩
              · left
                simp [hready]
  · intro env beforeStatus d invoiceId db
    rw [processInvoiceDocument]
    by_cases hb : beforeStatus = some d.status
    · rw [if_pos hb]
      exact trivial
    · rw [if_neg hb]
      by_cases hr : d.status ≠ .ready
      · rw [if_pos hr]
        exact trivial
      · rw [if_neg hr]
        push_neg at hr
        by_cases hocr : ¬env.ocrConfigured = true
        · rw [if_pos hocr]
          refine ⟨?_, trivial⟩
          right; right; right; right; right
          exact ⟨hr, rfl, by simp [Bool.not_eq_true] at hocr; simp [hocr]⟩
        · rw [if_neg hocr]
          have hlock : lockTx d env.now = (some d, lockedSession d env.now) := by
            rw [lockTx, if_neg (by simp [hr])]
          rw [hlock]
          dsimp only
          have hchain2 : ∀ tr, tr = ([.processing, .error] : List InvoiceStatus) ∨
              tr = [.processing, .done] →
              statusChainOk (!env.ocrConfigured) d.status tr := by
            rintro tr (rfl | rfl)
            · exact ⟨Or.inr (Or.inr (Or.inl ⟨hr, rfl⟩)),
                Or.inr (Or.inr (Or.inr (Or.inr (Or.inl ⟨rfl, rfl⟩)))), trivial⟩
            · exact ⟨Or.inr (Or.inr (Or.inl ⟨hr, rfl⟩)),
                Or.inr (Or.inr (Or.inr (Or.inl ⟨rfl, rfl⟩))), trivial⟩
          cases hbn : jsOrStr d.bucket env.defaultBucket with
          | none => exact ⟨Or.inr (Or.inr (Or.inl ⟨hr, rfl⟩)),
              Or.inr (Or.inr (Or.inr (Or.inr (Or.inl ⟨rfl, rfl⟩)))), trivial⟩
          | some b =>
            dsimp only
            by_cases hlen : (insertionSort (fun a b => a.pageNumber ≤ b.pageNumber)
                d.pages).length = 0
            · rw [if_pos hlen]
              exact ⟨Or.inr (Or.inr (Or.inl ⟨hr, rfl⟩)),
                Or.inr (Or.inr (Or.inr (Or.inr (Or.inl ⟨rfl, rfl⟩)))), trivial⟩
            · rw [if_neg hlen]
              by_cases hcnt : pageCountMismatch d.totalPages
                  ((insertionSort (fun a b => a.pageNumber ≤ b.pageNumber)
                    d.pages).length) = true
              · rw [if_pos hcnt]
                exact ⟨Or.inr (Or.inr (Or.inl ⟨hr, rfl⟩)),
                  Or.inr (Or.inr (Or.inr (Or.inr (Or.inl ⟨rfl, rfl⟩)))), trivial⟩
              · rw [if_neg hcnt]
                exact hchain2 _ (processSteps_trace env invoiceId d
                  (lockedSession d env.now) db)

/-! ## C2 infrastructure: registration traces -/

theorem insertSorted_perm (le : α → α → Bool) (a : α) (l : List α) :
    (insertSorted le a l).Perm (a :: l) := by
  induction l with
  | nil => exact List.Perm.refl _
  | cons b rest ih =>
    rw [insertSorted]
    by_cases h : le b a = true
    · rw [if_pos h]
      exact (ih.cons b).trans (List.Perm.swap a b rest)
    · rw [if_neg h]

theorem insertionSort_perm (le : α → α → Bool) (l : List α) :
    (insertionSort le l).Perm l := by
  induction l with
  | nil => exact List.Perm.refl _
  | cons a rest ih =>
    rw [insertionSort]
    exact (insertSorted_perm le a _).trans (ih.cons a)

theorem setAdd_of_nodup (p : Nat) (l : List Nat) (h : l.Nodup) :
    setAdd p l = if p ∈ l then l else l ++ [p] := by
  rw [setAdd, List.dedup_eq_self.mpr h]

theorem setAdd_nodup (p : Nat) (l : List Nat) (h : l.Nodup) :
    (setAdd p l).Nodup := by
  rw [setAdd_of_nodup p l h]
  by_cases hm : p ∈ l
  · rwa [if_pos hm]
  · rw [if_neg hm]
    rw [List.nodup_append]
    refine ⟨h, List.nodup_singleton p, ?_⟩
    intro a ha hap
    simp only [List.mem_singleton] at hap
    exact absurd (hap ▸ ha) hm

theorem setAdd_mem (p q : Nat) (l : List Nat) (h : l.Nodup) :
    q ∈ setAdd p l ↔ q = p ∨ q ∈ l := by
  rw [setAdd_of_nodup p l h]
  by_cases hm : p ∈ l
  · rw [if_pos hm]
    constructor
    · exact Or.inr
    · rintro (rfl | hq)
      · exact hm
      · exact hq
  · rw [if_neg hm]
    simp [or_comm]

theorem setAdd_length (p : Nat) (l : List Nat) (h : l.Nodup) :
    (setAdd p l).length = if p ∈ l then l.length else l.length + 1 := by
  rw [setAdd_of_nodup p l h]
  by_cases hm : p ∈ l
  · rw [if_pos hm, if_pos hm]
  · rw [if_neg hm, if_neg hm]
    simp

/-- Pigeonhole: a duplicate-free list of `n` values drawn from `{1..n}`
contains every value of `{1..n}`. -/

theorem full_range_mem (n : Nat) (l : List Nat) (hnd : l.Nodup)
    (hrange : ∀ q ∈ l, 1 ≤ q ∧ q ≤ n) (hlen : l.length = n)
    (p : Nat) (hp1 : 1 ≤ p) (hpn : p ≤ n) : p ∈ l := by
  have hsub : l.toFinset ⊆ Finset.Icc 1 n := by
    intro q hq
    rw [List.mem_toFinset] at hq
    rw [Finset.mem_Icc]
    exact hrange q hq
  have hcard : l.toFinset.card = n := by
    rw [List.toFinset_card_of_nodup hnd, hlen]
  have hicc : (Finset.Icc 1 n).card = n := by
    rw [Nat.card_Icc]
    omega
  have heq : l.toFinset = Finset.Icc 1 n :=
    Finset.eq_of_subset_of_card_le hsub (by rw [hcard, hicc])
  have : p ∈ l.toFinset := by
    rw [heq, Finset.mem_Icc]
    exact ⟨hp1, hpn⟩
  rwa [List.mem_toFinset] at this

/-- Shape of a successful registration against a session whose
`totalPages` is `n ≠ 0`: the guards resolved to `n` and the update is the
explicit document below. -/

theorem registerUploadedPage_ok_shape (n : Nat) (hn : n ≠ 0) (d : SessionDoc)
    (hd : d.totalPages = some n) (p : Nat) (objName : String)
    (bn : Option String) (ct : String) (tp : Option Nat) (uid : Option String)
    (now : Nat) (d' : SessionDoc)
    (h : registerUploadedPage (some d) p objName bn ct tp uid now = .ok d') :
    p ≤ n ∧
    d' = { d with
      totalPages := some n
      uploadedPages := insertionSort (fun a b => a ≤ b) (setAdd p d.uploadedPages)
      uploadedCount := (setAdd p d.uploadedPages).length
      pages := insertionSort (fun a b => a.pageNumber ≤ b.pageNumber)
        ((d.pages.filter (fun entry => entry.pageNumber ≠ p)) ++
          [{ pageNumber := p, objectName := objName, bucket := bn,
             contentType := ct, recordedAt := now }])
      bucket := jsOrStr bn d.bucket
      ownerUid := jsOrStr d.ownerUid uid
      status := if (setAdd p d.uploadedPages).length = n ∧ d.status = .pending
                then .ready else d.status
      readyAt := if (setAdd p d.uploadedPages).length = n ∧ d.status = .pending
                 then some now else d.readyAt } := by
  rw [registerUploadedPage] at h
  by_cases hown : ownerMismatch d.ownerUid uid = true
  · rw [if_pos hown] at h
    cases h
  · rw [if_neg hown] at h
    have hres : jsOrNat d.totalPages tp = some n := by
      rw [hd, jsOrNat, if_neg hn]
    rw [hres] at h
    dsimp only at h
    rw [if_neg hn] at h
    by_cases hmm : totalPagesMismatch (some n) tp = true
    · rw [if_pos hmm] at h
      cases h
    · rw [if_neg hmm] at h
      by_cases hpn : n < p
      · rw [if_pos hpn] at h
        cases h
      · rw [if_neg hpn] at h
        cases h
        exact ⟨Nat.le_of_not_lt hpn, rfl⟩

/-- Filtering page records by page number commutes with projecting the
page numbers. -/

theorem pages_filter_map (l : List PageRecord) (p : Nat) :
    (l.filter (fun entry => entry.pageNumber ≠ p)).map PageRecord.pageNumber =
      (l.map PageRecord.pageNumber).filter (fun q => q ≠ p) := by
  induction l with
  | nil => rfl
  | cons e rest ih =>
    simp only [ne_eq, decide_not] at ih
    by_cases he : e.pageNumber = p
    · simp [List.filter_cons, he, ih]
    · simp [List.filter_cons, he, ih]

/-- A successful registration preserves the session invariant. -/

theorem sessionInv_register (n : Nat) (hn : 1 ≤ n) (d : SessionDoc)
    (hinv : SessionInv n d) (p : Nat) (hp : 1 ≤ p) (objName : String)
    (bn : Option String) (ct : String) (tp : Option Nat) (uid : Option String)
    (now : Nat) (d' : SessionDoc)
    (h : registerUploadedPage (some d) p objName bn ct tp uid now = .ok d') :
    SessionInv n d' := by
  obtain ⟨htot, hnd, hrange, hpnd, hstat, hiff⟩ := hinv
  obtain ⟨hple, rfl⟩ := registerUploadedPage_ok_shape n (by omega) d htot p objName
    bn ct tp uid now d' h
  have hperm := insertionSort_perm (fun a b => a ≤ b) (setAdd p d.uploadedPages)
  have hLnodup := setAdd_nodup p d.uploadedPages hnd
  have hpagesPerm := insertionSort_perm (fun a b => a.pageNumber ≤ b.pageNumber)
    ((d.pages.filter (fun entry => entry.pageNumber ≠ p)) ++
      [{ pageNumber := p, objectName := objName, bucket := bn,
         contentType := ct, recordedAt := now }])
  refine ⟨rfl, ?_, ?_, ?_, ?_, ?_⟩
  · exact hperm.nodup_iff.mpr hLnodup
  · intro q hq
    rw [hperm.mem_iff, setAdd_mem p q d.uploadedPages hnd] at hq
    rcases hq with rfl | hq
    · exact ⟨hp, hple⟩
    · exact hrange q hq
  · have hmapPerm := hpagesPerm.map PageRecord.pageNumber
    rw [List.map_append, pages_filter_map] at hmapPerm
    refine hmapPerm.nodup_iff.mpr ?_
    rw [List.nodup_append]
    refine ⟨hpnd.filter _, List.nodup_singleton _, ?_⟩
    intro a ha hap
    simp only [List.map_cons, List.map_nil, List.mem_singleton] at hap
    rw [List.mem_filter] at ha
    subst hap
    simpa using ha.2
  · by_cases hready : (setAdd p d.uploadedPages).length = n ∧ d.status = .pending
    · rw [if_pos hready]
      exact Or.inr rfl
    · rw [if_neg hready]
      exact hstat
  · rw [hperm.length_eq]
    by_cases hready : (setAdd p d.uploadedPages).length = n ∧ d.status = .pending
    · rw [if_pos hready]
      simp [hready.1]
    · rw [if_neg hready]
      rcases hstat with hpend | hrdy
      · rw [hpend]
        constructor
        · intro habs
          cases habs
        · intro hlen
          exact absurd ⟨hlen, hpend⟩ hready
      · rw [hrdy]
        have hlenold : d.uploadedPages.length = n := hiff.mp hrdy
        have hpmem : p ∈ d.uploadedPages :=
          full_range_mem n d.uploadedPages hnd hrange hlenold p hp hple
        rw [setAdd_length p d.uploadedPages hnd, if_pos hpmem]
        simp [hlenold]

/-- A successful registration transitions to `ready` exactly when the
post-insertion distinct-page count equals `totalPages` and the status was
still `pending`. -/

theorem register_transition_iff (n : Nat) (d : SessionDoc)
    (htot : d.totalPages = some n) (hn : n ≠ 0) (p : Nat) (objName : String)
    (bn : Option String) (ct : String) (tp : Option Nat) (uid : Option String)
    (now : Nat) (d' : SessionDoc)
    (h : registerUploadedPage (some d) p objName bn ct tp uid now = .ok d') :
    (d'.status = .ready ∧ d.status ≠ .ready) ↔
      (d'.uploadedCount = n ∧ d.status = .pending) := by
  obtain ⟨hple, rfl⟩ := registerUploadedPage_ok_shape n hn d htot p objName
    bn ct tp uid now d' h
  by_cases hc : (setAdd p d.uploadedPages).length = n ∧ d.status = .pending
  · rw [if_pos hc]
    constructor
    · intro _
      exact hc
    · intro _
      refine ⟨rfl, ?_⟩
      rw [hc.2]
      intro habs
      cases habs
  · rw [if_neg hc]
    constructor
    · rintro ⟨h1, h2⟩
      exact absurd h1 h2
    · rintro ⟨h1, h2⟩
      exact absurd ⟨h1, h2⟩ hc

/-- Re-registering an already-uploaded page number replaces its record in
place: the distinct-page count is unchanged, the page records stay
duplicate-free, the status does not change (no re-trigger of readiness),
and the new record for that page number is present. -/

theorem register_reregistration (n : Nat) (hn : 1 ≤ n) (d : SessionDoc)
    (hinv : SessionInv n d) (p : Nat) (hp : 1 ≤ p)
    (hmem : p ∈ d.uploadedPages) (objName : String)
    (bn : Option String) (ct : String) (tp : Option Nat) (uid : Option String)
    (now : Nat) (d' : SessionDoc)
    (h : registerUploadedPage (some d) p objName bn ct tp uid now = .ok d') :
    d'.uploadedCount = d.uploadedPages.length ∧
    (d'.pages.map PageRecord.pageNumber).Nodup ∧
    d'.status = d.status ∧
    ∃ rec ∈ d'.pages, rec.pageNumber = p ∧ rec.objectName = objName ∧
      rec.recordedAt = now := by
  have hinv' := sessionInv_register n hn d hinv p hp objName bn ct tp uid now d' h
  obtain ⟨htot, hnd, hrange, hpnd, hstat, hiff⟩ := hinv
  obtain ⟨hple, rfl⟩ := registerUploadedPage_ok_shape n (by omega) d htot p objName
    bn ct tp uid now d' h
  have hsetEq : setAdd p d.uploadedPages = d.uploadedPages := by
    rw [setAdd_of_nodup p _ hnd, if_pos hmem]
  have hcFalse : ¬((setAdd p d.uploadedPages).length = n ∧ d.status = .pending) := by
    rintro ⟨hlen, hpend⟩
    rw [hsetEq] at hlen
    have : d.status = .ready := hiff.mpr hlen
    rw [hpend] at this
    cases this
  refine ⟨by rw [hsetEq], hinv'.2.2.2.1, by rw [if_neg hcFalse], ?_⟩
  have hpagesPerm := insertionSort_perm (fun a b => a.pageNumber ≤ b.pageNumber)
    ((d.pages.filter (fun entry => entry.pageNumber ≠ p)) ++
      [{ pageNumber := p, objectName := objName, bucket := bn,
         contentType := ct, recordedAt := now }])
  refine ⟨{ pageNumber := p, objectName := objName, bucket := bn,
            contentType := ct, recordedAt := now }, ?_, rfl, rfl, rfl⟩
  rw [hpagesPerm.mem_iff]
  simp

/-- The invariant holds along any serialized sequence of registration
transactions. -/

theorem sessionInv_runRegisters (n : Nat) (hn : 1 ≤ n) (d : SessionDoc)
    (hinv : SessionInv n d) (reqs : List RegisterReq)
    (hreqs : ∀ r ∈ reqs, 1 ≤ r.pageNumber) :
    SessionInv n (runRegisters d reqs) := by
  induction reqs generalizing d with
  | nil => exact hinv
  | cons r rest ih =>
    rw [runRegisters, List.foldl_cons]
    rw [show List.foldl applyRegister (applyRegister d r) rest =
      runRegisters (applyRegister d r) rest from rfl]
    refine ih _ ?_ (fun q hq => hreqs q (List.mem_cons_of_mem r hq))
    rw [applyRegister]
    cases hreg : registerUploadedPage (some d) r.pageNumber r.objectName
        r.bucketName r.contentType r.totalPages r.uid r.now with
    | ok d' =>
      exact sessionInv_register n hn d hinv r.pageNumber
        (hreqs r (List.mem_cons_self r rest)) r.objectName r.bucketName
        r.contentType r.totalPages r.uid r.now d' hreg
    | error e => exact hinv

/-- The session document created by `ensureInvoiceDocument` for a new
invoice satisfies the invariant. -/

theorem sessionInv_fresh (n : Nat) (hn : 1 ≤ n) (uid bucket : Option String)
    (d0 : SessionDoc) (h : ensureInvoiceDocument none uid bucket (some n) = .ok d0) :
    SessionInv n d0 := by
  rw [ensureInvoiceDocument] at h
  cases h
  refine ⟨rfl, List.nodup_nil, by simp, List.nodup_nil, Or.inl rfl, ?_⟩
  constructor
  · intro habs
    cases habs
  · intro hlen
    simp at hlen
    omega

/-- C2: for a session created with `totalPages = n` (n ≥ 1): (i) along any
serialized sequence of registrations the invariant holds — in particular
`status = ready` exactly when the set of uploaded page numbers has
cardinality `n`; (ii) a successful registration transitions to `ready`
exactly when the post-insertion distinct-page count is `n` while the
status is still `pending`; (iii) re-registering an uploaded page number
replaces its PageRecord in place — count unchanged, no duplicate record,
no status change; (iv) with `totalPages = 2`, registering page 2 first
leaves `pending` and then registering page 1 yields `ready`. -/

theorem c2_registration_readiness (n : Nat) (hn : 1 ≤ n) :
    (∀ uid bucket d0, ensureInvoiceDocument none uid bucket (some n) = .ok d0 →
      ∀ reqs : List RegisterReq, (∀ r ∈ reqs, 1 ≤ r.pageNumber) →
      SessionInv n (runRegisters d0 reqs) ∧
      ((runRegisters d0 reqs).status = .ready ↔
        (runRegisters d0 reqs).uploadedPages.length = n)) ∧
    (∀ d, SessionInv n d → ∀ p objName bn ct tp uid now d',
      registerUploadedPage (some d) p objName bn ct tp uid now = .ok d' →
      ((d'.status = .ready ∧ d.status ≠ .ready) ↔
        (d'.uploadedCount = n ∧ d.status = .pending))) ∧
    (∀ d, SessionInv n d → ∀ p, 1 ≤ p → p ∈ d.uploadedPages →
      ∀ objName bn ct tp uid now d',
      registerUploadedPage (some d) p objName bn ct tp uid now = .ok d' →
      d'.uploadedCount = d.uploadedPages.length ∧
      (d'.pages.map PageRecord.pageNumber).Nodup ∧
      d'.status = d.status ∧
      ∃ rec ∈ d'.pages, rec.pageNumber = p ∧ rec.objectName = objName ∧
        rec.recordedAt = now) ∧
    ((runRegisters c2Fresh2 [c2Req 2 "uploads/s/page-002-b.jpg"]).status =
      .pending ∧
     (runRegisters c2Fresh2 [c2Req 2 "uploads/s/page-002-b.jpg",
        c2Req 1 "uploads/s/page-001-a.jpg"]).status = .ready) := by
  refine ⟨?_, ?_, ?_, rfl, rfl⟩
  · intro uid bucket d0 h0 reqs hreqs
    have hinv := sessionInv_runRegisters n hn d0
      (sessionInv_fresh n hn uid bucket d0 h0) reqs hreqs
    exact ⟨hinv, hinv.2.2.2.2.2⟩
  · intro d hinv p objName bn ct tp uid now d' h
    exact register_transition_iff n d hinv.1 (by omega) p objName bn ct tp uid
      now d' h
  · intro d hinv p hp hmem objName bn ct tp uid now d' h
    exact register_reregistration n hn d hinv p hp hmem objName bn ct tp uid
      now d' h

/-- Witness for C2 at `totalPages = 2`: the invariant after registering
pages 2 then 1 out of order, and the concrete pending-then-ready scenario. -/

theorem c2_registration_readiness_witness :
    SessionInv 2 (runRegisters c2Fresh2 [c2Req 2 "uploads/s/page-002-b.jpg",
      c2Req 1 "uploads/s/page-001-a.jpg"]) ∧
    (runRegisters c2Fresh2 [c2Req 2 "uploads/s/page-002-b.jpg"]).status =
      .pending ∧
    (runRegisters c2Fresh2 [c2Req 2 "uploads/s/page-002-b.jpg",
      c2Req 1 "uploads/s/page-001-a.jpg"]).status = .ready := by
  have h := c2_registration_readiness 2 (by norm_num)
  exact ⟨(h.1 (some "owner-1") (some "bucket") c2Fresh2 rfl
    [c2Req 2 "uploads/s/page-002-b.jpg", c2Req 1 "uploads/s/page-001-a.jpg"]
    (by intro r hr; fin_cases hr <;> simp [c2Req])).1,
    h.2.2.2.1, h.2.2.2.2⟩

/-- Witness for C3 at concrete inputs: a concrete registration performs
only the `pending → ready` edge, and a concrete configured processing run
chains along the allowed edges. -/

theorem c3_status_transitions_amended_witness :
    (∃ d', registerUploadedPage (some c3PendingDoc) 1 "uploads/s/page-001-a.jpg"
        (some "bucket") "image/jpeg" none (some "owner-1") 7 = .ok d' ∧
      (d'.status = c3PendingDoc.status ∨
        (c3PendingDoc.status = .pending ∧ d'.status = .ready))) ∧
    statusChainOk
      (!(demoEnv (.ok (some c6Fields)) (.ok ()) (.ok ())).ocrConfigured)
      readyDoc.status
      (processInvoiceDocument (demoEnv (.ok (some c6Fields)) (.ok ()) (.ok ()))
        none readyDoc "inv-3w" []).statusTrace :=
  ⟨⟨_, rfl, c3_status_transitions_amended.2.2.1 c3PendingDoc 1
      "uploads/s/page-001-a.jpg" (some "bucket") "image/jpeg" none
      (some "owner-1") 7 _ rfl⟩,
   c3_status_transitions_amended.2.2.2
     (demoEnv (.ok (some c6Fields)) (.ok ()) (.ok ())) none readyDoc "inv-3w" []⟩

end InvoiceScanner
